import Mathlib

/-!
Sepia chroma fill of a planar YUV 4:2:0 frame.

Shallow embedding of the two platform routines of the repository

* `VideoProcessing::applySepiaFilter` (`ios/Runner/VideoProcessing.cpp`), and
* `Java_io_agora_agora_1rtc_1flutter_1example_VideoRawDataController_nativeApplySepiaFilter`
  (`android/app/src/main/cpp/video_processing.cpp`),

followed by the properties proved about them.

Modelling conventions.

* A plane is a list of bytes; a null plane pointer is `none`.  The three planes
  are three separate buffers.
* A C `int` is an `Int`; the result of `+` and `*` on `int` is reduced to the
  32-bit two's complement range by `wrap32`, `/` is truncated division.
* `memset` is bounds checked: a fill that leaves the buffer it was given has no
  defined result, and the whole call is then `none`.
* The definitions with suffix `Flat` run the same routines on one address space that
  holds all three planes, the plane pointers being offsets into it; there a fill that
  leaves its plane lands in whatever lies next to it.
-/

set_option linter.unusedVariables false

namespace VideoProcessing

/-- One `uint8_t`. -/
abbrev Byte := Fin 256

/-- The three plane pointers of a frame; `none` is the null pointer. -/
structure Frame where
  yBuffer : Option (List Byte)
  uBuffer : Option (List Byte)
  vBuffer : Option (List Byte)
deriving DecidableEq

/-- Value of an `int` expression whose mathematical value is `x`: reduction to the
32-bit two's complement range `[-2^31, 2^31)`. -/
def wrap32 (x : Int) : Int :=
  (x + 2147483648) % 4294967296 - 2147483648

/-- Conversion of an `int` to `size_t` (64 bits), as in the third argument of `memset`. -/
def toSizeT (x : Int) : Nat :=
  (x % 18446744073709551616).toNat

/-- The library routine `memset(buf + off, val, n)`: the `n` bytes at offsets
`off, ..., off + n - 1` become `val`.  A fill of no byte does nothing; a fill that
touches an offset outside `[0, buf.length)` has no result. -/
def memset (buf : List Byte) (off : Int) (val : Byte) (n : Nat) : Option (List Byte) :=
  if n = 0 then some buf
  else if 0 ≤ off ∧ off + n ≤ buf.length then
    some (buf.take off.toNat ++ List.replicate n val ++ buf.drop (off.toNat + n))
  else none

/-- The constant `const uint8_t sepia_u = 100;`. -/
def sepia_u : Byte := 100

/-- The constant `const uint8_t sepia_v = 160;`. -/
def sepia_v : Byte := 160

/-- The line `int chroma_width = (width + 1) / 2;`. -/
def chroma_width (width : Int) : Int :=
  Int.tdiv (wrap32 (width + 1)) 2

/-- The line `int chroma_height = (height + 1) / 2;`. -/
def chroma_height (height : Int) : Int :=
  Int.tdiv (wrap32 (height + 1)) 2

/-- One of the row loops of `applySepiaFilter`,
`for (; r < chroma_height; ++r) memset(buffer + r * stride, sepia, chroma_width);`
entered with row counter `r` and `rows` iterations left to run. -/
def fillRows (sepia : Byte) (stride cw : Int) : Nat → Int → List Byte → Option (List Byte)
  | 0, _, buf => some buf
  | rows + 1, r, buf =>
    (memset buf (wrap32 (r * stride)) sepia (toSizeT cw)).bind
      (fillRows sepia stride cw rows (r + 1))

/-- The routine `VideoProcessing::applySepiaFilter`: early return when a plane is
null, then the loop over the rows of U, then the loop over the rows of V.  Both
loops start at `r = 0` and run while `r < chroma_height`, that is
`(chroma_height height).toNat` times. -/
def applySepiaFilter (f : Frame) (yStride uStride vStride width height : Int) :
    Option Frame :=
  match f.yBuffer, f.uBuffer, f.vBuffer with
  | some yBuffer, some uBuffer, some vBuffer =>
    (fillRows sepia_u uStride (chroma_width width)
        (chroma_height height).toNat 0 uBuffer).bind fun u =>
    (fillRows sepia_v vStride (chroma_width width)
        (chroma_height height).toNat 0 vBuffer).bind fun v =>
    some ⟨some yBuffer, some u, some v⟩
  | _, _, _ => some f

/-- The single row loop of the Android routine,
`for (; r < chroma_height; ++r) { memset(src_u + r * u_stride, sepia_u, chroma_width);
memset(src_v + r * v_stride, sepia_v, chroma_width); }`
entered with row counter `r` and `rows` iterations left to run. -/
def fillRowsUV (u_stride v_stride cw : Int) :
    Nat → Int → List Byte → List Byte → Option (List Byte × List Byte)
  | 0, _, src_u, src_v => some (src_u, src_v)
  | rows + 1, r, src_u, src_v =>
    (memset src_u (wrap32 (r * u_stride)) sepia_u (toSizeT cw)).bind fun u =>
    (memset src_v (wrap32 (r * v_stride)) sepia_v (toSizeT cw)).bind fun v =>
    fillRowsUV u_stride v_stride cw rows (r + 1) u v

/-- The routine
`Java_io_agora_agora_1rtc_1flutter_1example_VideoRawDataController_nativeApplySepiaFilter`.
The frame holds what `GetDirectBufferAddress` returns for the three buffer objects. -/
def Java_io_agora_agora_1rtc_1flutter_1example_VideoRawDataController_nativeApplySepiaFilter
    (f : Frame) (y_stride u_stride v_stride width height : Int) : Option Frame :=
  match f.yBuffer, f.uBuffer, f.vBuffer with
  | some src_y, some src_u, some src_v =>
    (fillRowsUV u_stride v_stride (chroma_width width)
        (chroma_height height).toNat 0 src_u src_v).bind fun uv =>
    some ⟨some src_y, some uv.1, some uv.2⟩
  | _, _, _ => some f

/-- The row loop of `fillRows` run on one address space `mem` that holds all the planes.
`buffer` is the plane pointer, an offset into `mem`; row `r` is filled from address
`buffer + r * stride` on, in whichever plane that address lies.  Only a fill that leaves
`mem` altogether has no result. -/
def fillRowsFlat (sepia : Byte) (buffer stride cw : Int) :
    Nat → Int → List Byte → Option (List Byte)
  | 0, _, mem => some mem
  | rows + 1, r, mem =>
    (memset mem (buffer + wrap32 (r * stride)) sepia (toSizeT cw)).bind
      (fillRowsFlat sepia buffer stride cw rows (r + 1))

/-- The routine `VideoProcessing::applySepiaFilter` on one address space `mem`: the plane
pointers are offsets into `mem` (`none` is the null pointer), and nothing keeps a fill
inside the plane its pointer belongs to. -/
def applySepiaFilterFlat (mem : List Byte) (yBuffer uBuffer vBuffer : Option Int)
    (yStride uStride vStride width height : Int) : Option (List Byte) :=
  match yBuffer, uBuffer, vBuffer with
  | some _, some uBuffer, some vBuffer =>
    (fillRowsFlat sepia_u uBuffer uStride (chroma_width width)
        (chroma_height height).toNat 0 mem).bind
      (fillRowsFlat sepia_v vBuffer vStride (chroma_width width)
        (chroma_height height).toNat 0)
  | _, _, _ => some mem

/-- The row loop of `fillRowsUV` run on one address space `mem`; `src_u` and `src_v` are
offsets into `mem`. -/
def fillRowsUVFlat (src_u src_v u_stride v_stride cw : Int) :
    Nat → Int → List Byte → Option (List Byte)
  | 0, _, mem => some mem
  | rows + 1, r, mem =>
    (memset mem (src_u + wrap32 (r * u_stride)) sepia_u (toSizeT cw)).bind fun m =>
    (memset m (src_v + wrap32 (r * v_stride)) sepia_v (toSizeT cw)).bind
      (fillRowsUVFlat src_u src_v u_stride v_stride cw rows (r + 1))

/-- The Android routine `..._nativeApplySepiaFilter` on one address space `mem`; the
plane pointers returned by `GetDirectBufferAddress` are offsets into `mem`. -/
def nativeApplySepiaFilterFlat (mem : List Byte) (src_y src_u src_v : Option Int)
    (y_stride u_stride v_stride width height : Int) : Option (List Byte) :=
  match src_y, src_u, src_v with
  | some _, some src_u, some src_v =>
    fillRowsUVFlat src_u src_v u_stride v_stride (chroma_width width)
      (chroma_height height).toNat 0 mem
  | _, _, _ => some mem

/-- Offset `i` lies in one of the rows filled by `rows` iterations of the row loop
entered with counter `r`. -/
def Written (stride cw : Int) (rows : Nat) (r : Int) (i : Nat) : Prop :=
  ∃ j : Nat, j < rows ∧ wrap32 ((r + j) * stride) ≤ (i : Int) ∧
    (i : Int) < wrap32 ((r + j) * stride) + toSizeT cw

/-- Every fill issued by `rows` iterations of the row loop entered with counter `r`
stays inside a buffer of `len` bytes. -/
def RowsFit (stride cw : Int) (rows : Nat) (r : Int) (len : Nat) : Prop :=
  toSizeT cw = 0 ∨ ∀ j : Nat, j < rows →
    0 ≤ wrap32 ((r + j) * stride) ∧ wrap32 ((r + j) * stride) + toSizeT cw ≤ len

/-- Offset `i` belongs to the active region of a chroma plane with row pitch `stride`:
`i = r * stride + c` for a row `r` and a column `c` of the region. -/
def InRegion (stride cw ch : Int) (i : Nat) : Prop :=
  ∃ r c : Int, 0 ≤ r ∧ r < ch ∧ 0 ≤ c ∧ c < cw ∧ (i : Int) = r * stride + c

/-! ## Auxiliary lemmas -/

theorem memset_spec {buf b : List Byte} {off : Int} {val : Byte} {n : Nat}
    (h : memset buf off val n = some b) :
    b.length = buf.length ∧
      ∀ i : Nat, b[i]? = if off ≤ (i : Int) ∧ (i : Int) < off + n then some val else buf[i]? := by
  unfold memset at h
  split_ifs at h with h0 h1
  · cases h
    subst h0
    refine ⟨rfl, fun i => ?_⟩
    rw [if_neg]
    omega
  · cases h
    obtain ⟨ho, hn⟩ := h1
    obtain ⟨o, rfl⟩ := Int.eq_ofNat_of_zero_le ho
    have hn' : o + n ≤ buf.length := by omega
    simp only [Int.toNat_ofNat]
    refine ⟨?_, fun i => ?_⟩
    · simp only [List.length_append, List.length_take, List.length_replicate, List.length_drop]
      omega
    · by_cases h1 : i < o
      · have : ¬ ((o : Int) ≤ i ∧ (i : Int) < o + n) := by omega
        rw [if_neg this, List.append_assoc, List.getElem?_append_left (by simp; omega)]
        simp [List.getElem?_take, h1]
      · by_cases h2 : i < o + n
        · have : ((o : Int) ≤ i ∧ (i : Int) < o + n) := by omega
          rw [if_pos this, List.append_assoc, List.getElem?_append_right (by simp; omega),
            List.getElem?_append_left (by simp; omega)]
          simp [List.getElem?_replicate]
          omega
        · have : ¬ ((o : Int) ≤ i ∧ (i : Int) < o + n) := by omega
          rw [if_neg this, List.getElem?_append_right (by simp; omega)]
          simp only [List.length_append, List.length_take, List.length_replicate,
            List.getElem?_drop]
          congr 1
          omega

theorem memset_isSome_iff (buf : List Byte) (off : Int) (val : Byte) (n : Nat) :
    (memset buf off val n).isSome ↔ (n = 0 ∨ (0 ≤ off ∧ off + n ≤ buf.length)) := by
  unfold memset
  split_ifs with h0 h1
  · simp [h0]
  · simp [h1]
  · simp [h0, h1]

theorem written_succ (stride cw : Int) (rows : Nat) (r : Int) (i : Nat) :
    Written stride cw (rows + 1) r i ↔
      ((wrap32 (r * stride) ≤ (i : Int) ∧ (i : Int) < wrap32 (r * stride) + toSizeT cw) ∨
        Written stride cw rows (r + 1) i) := by
  constructor
  · rintro ⟨j, hj, h⟩
    cases j with
    | zero => left; simpa using h
    | succ j =>
      right
      refine ⟨j, by omega, ?_⟩
      have e : r + 1 + (j : Int) = r + ((j + 1 : Nat) : Int) := by push_cast; ring
      rw [e]; exact h
  · rintro (h | ⟨j, hj, h⟩)
    · exact ⟨0, by omega, by simpa using h⟩
    · refine ⟨j + 1, by omega, ?_⟩
      have e : r + 1 + (j : Int) = r + ((j + 1 : Nat) : Int) := by push_cast; ring
      rw [← e]; exact h

theorem rowsFit_succ (stride cw : Int) (rows : Nat) (r : Int) (len : Nat) :
    RowsFit stride cw (rows + 1) r len ↔
      ((toSizeT cw = 0 ∨ (0 ≤ wrap32 (r * stride) ∧ wrap32 (r * stride) + toSizeT cw ≤ len)) ∧
        RowsFit stride cw rows (r + 1) len) := by
  have e : ∀ j : Nat, r + 1 + (j : Int) = r + ((j + 1 : Nat) : Int) := by
    intro j; push_cast; ring
  constructor
  · rintro (h | h)
    · exact ⟨Or.inl h, Or.inl h⟩
    · refine ⟨Or.inr (by simpa using h 0 (by omega)), Or.inr fun j hj => ?_⟩
      rw [e]; exact h (j + 1) (by omega)
  · rintro ⟨h0, h | h⟩
    · exact Or.inl h
    · rcases h0 with h0 | h0
      · exact Or.inl h0
      · refine Or.inr fun j hj => ?_
        cases j with
        | zero => simpa using h0
        | succ j => rw [← e]; exact h j (by omega)

theorem fillRows_spec (sepia : Byte) (stride cw : Int) :
    ∀ (rows : Nat) (r : Int) (buf b : List Byte),
      fillRows sepia stride cw rows r buf = some b →
      b.length = buf.length ∧
        (∀ i : Nat, Written stride cw rows r i → i < buf.length → b[i]? = some sepia) ∧
        (∀ i : Nat, ¬ Written stride cw rows r i → b[i]? = buf[i]?) := by
  intro rows
  induction rows with
  | zero =>
    intro r buf b h
    simp only [fillRows, Option.some.injEq] at h
    subst h
    refine ⟨rfl, ?_, fun _ _ => rfl⟩
    rintro i ⟨j, hj, _⟩
    omega
  | succ rows ih =>
    intro r buf b h
    simp only [fillRows] at h
    cases hm : memset buf (wrap32 (r * stride)) sepia (toSizeT cw) with
    | none => simp [hm] at h
    | some b1 =>
      rw [hm] at h
      simp only [Option.some_bind] at h
      obtain ⟨hl1, hg1⟩ := memset_spec hm
      obtain ⟨hl, hw, hn⟩ := ih (r + 1) b1 b h
      refine ⟨hl.trans hl1, ?_, ?_⟩
      · intro i hi hlt
        by_cases hlater : Written stride cw rows (r + 1) i
        · exact hw i hlater (by omega)
        · rw [hn i hlater, hg1 i]
          rcases (written_succ stride cw rows r i).1 hi with h0 | h0
          · rw [if_pos h0]
          · exact absurd h0 hlater
      · intro i hi
        have hi' := (written_succ stride cw rows r i).not.1 hi
        push_neg at hi'
        have h2 : ¬ Written stride cw rows (r + 1) i := hi'.2
        rw [hn i h2, hg1 i, if_neg]
        intro hc
        have := hi'.1 hc.1
        omega

theorem fillRows_isSome_iff (sepia : Byte) (stride cw : Int) :
    ∀ (rows : Nat) (r : Int) (buf : List Byte),
      (fillRows sepia stride cw rows r buf).isSome ↔ RowsFit stride cw rows r buf.length := by
  intro rows
  induction rows with
  | zero =>
    intro r buf
    simp only [fillRows, Option.isSome_some, true_iff]
    exact Or.inr fun j hj => by omega
  | succ rows ih =>
    intro r buf
    rw [rowsFit_succ]
    simp only [fillRows]
    cases hm : memset buf (wrap32 (r * stride)) sepia (toSizeT cw) with
    | none =>
      have := (memset_isSome_iff buf (wrap32 (r * stride)) sepia (toSizeT cw)).not.1 (by simp [hm])
      simp only [Option.none_bind, Option.isSome_none, Bool.false_eq_true, false_iff]
      exact fun h => this h.1
    | some b1 =>
      have h1 := (memset_isSome_iff buf (wrap32 (r * stride)) sepia (toSizeT cw)).1 (by simp [hm])
      simp only [Option.some_bind]
      rw [ih (r + 1) b1, (memset_spec hm).1]
      exact ⟨fun h => ⟨h1, h⟩, fun h => h.2⟩

theorem fillRowsUV_eq (u_stride v_stride cw : Int) :
    ∀ (rows : Nat) (r : Int) (u v : List Byte),
      fillRowsUV u_stride v_stride cw rows r u v =
        (fillRows sepia_u u_stride cw rows r u).bind fun u1 =>
          (fillRows sepia_v v_stride cw rows r v).bind fun v1 => some (u1, v1) := by
  intro rows
  induction rows with
  | zero => intro r u v; rfl
  | succ rows ih =>
    intro r u v
    simp only [fillRowsUV, fillRows]
    cases memset u (wrap32 (r * u_stride)) sepia_u (toSizeT cw) with
    | none => rfl
    | some u1 =>
      cases memset v (wrap32 (r * v_stride)) sepia_v (toSizeT cw) with
      | none =>
        simp only [Option.some_bind, Option.none_bind]
        cases fillRows sepia_u u_stride cw rows (r + 1) u1 <;> rfl
      | some v1 =>
        simp only [Option.some_bind]
        exact ih (r + 1) u1 v1

theorem native_eq_applySepiaFilter (f : Frame) (yStride uStride vStride width height : Int) :
    Java_io_agora_agora_1rtc_1flutter_1example_VideoRawDataController_nativeApplySepiaFilter
        f yStride uStride vStride width height =
      applySepiaFilter f yStride uStride vStride width height := by
  unfold Java_io_agora_agora_1rtc_1flutter_1example_VideoRawDataController_nativeApplySepiaFilter
    applySepiaFilter
  split
  · rw [fillRowsUV_eq]
    cases fillRows sepia_u uStride (chroma_width width) (chroma_height height).toNat 0 _ with
    | none => rfl
    | some u1 =>
      cases fillRows sepia_v vStride (chroma_width width) (chroma_height height).toNat 0 _ <;> rfl
  · rfl

theorem wrap32_of_range {x : Int} (h0 : -2147483648 ≤ x) (h1 : x < 2147483648) :
    wrap32 x = x := by
  unfold wrap32
  omega

theorem chroma_width_eq {w : Int} (h0 : 0 ≤ w) (h1 : w < 2147483647) :
    chroma_width w = (w + 1) / 2 := by
  unfold chroma_width
  rw [wrap32_of_range (by omega) (by omega), Int.tdiv_eq_ediv (by omega) (by omega)]

theorem chroma_height_eq {h : Int} (h0 : 0 ≤ h) (h1 : h < 2147483647) :
    chroma_height h = (h + 1) / 2 := by
  unfold chroma_height
  rw [wrap32_of_range (by omega) (by omega), Int.tdiv_eq_ediv (by omega) (by omega)]

theorem toSizeT_of_range {x : Int} (h0 : 0 ≤ x) (h1 : x < 18446744073709551616) :
    (toSizeT x : Int) = x := by
  unfold toSizeT
  omega

theorem written_iff_inRegion {stride w h : Int} (hw0 : 0 ≤ w) (hw1 : w < 2147483647)
    (hh0 : 0 ≤ h) (hh1 : h < 2147483647) (hs : 0 ≤ stride)
    (hov : 0 < (h + 1) / 2 → 0 < (w + 1) / 2 → ((h + 1) / 2 - 1) * stride < 2147483648)
    (i : Nat) :
    Written stride (chroma_width w) (chroma_height h).toNat 0 i ↔
      InRegion stride ((w + 1) / 2) ((h + 1) / 2) i := by
  rw [chroma_width_eq hw0 hw1, chroma_height_eq hh0 hh1]
  have hcw : (toSizeT ((w + 1) / 2) : Int) = (w + 1) / 2 :=
    toSizeT_of_range (by omega) (by omega)
  have hch : (((h + 1) / 2).toNat : Int) = (h + 1) / 2 := Int.toNat_of_nonneg (by omega)
  constructor
  · rintro ⟨j, hj, h1, h2⟩
    rw [hcw] at h2
    have hjc : (j : Int) ≤ (h + 1) / 2 - 1 := by omega
    have hpos : 0 < (w + 1) / 2 := by omega
    have hle : (j : Int) * stride ≤ ((h + 1) / 2 - 1) * stride :=
      mul_le_mul_of_nonneg_right hjc hs
    have hnn : 0 ≤ (j : Int) * stride := mul_nonneg (by omega) hs
    have hb := hov (by omega) hpos
    have e : wrap32 ((0 + (j : Int)) * stride) = (j : Int) * stride := by
      rw [zero_add]; exact wrap32_of_range (by omega) (by omega)
    rw [e] at h1 h2
    exact ⟨j, (i : Int) - j * stride, by omega, by omega, by omega, by omega, by ring⟩
  · rintro ⟨r, c, hr0, hr1, hc0, hc1, hi⟩
    obtain ⟨j, rfl⟩ := Int.eq_ofNat_of_zero_le hr0
    have hjc : (j : Int) ≤ (h + 1) / 2 - 1 := by omega
    have hle : (j : Int) * stride ≤ ((h + 1) / 2 - 1) * stride :=
      mul_le_mul_of_nonneg_right hjc hs
    have hnn : 0 ≤ (j : Int) * stride := mul_nonneg (by omega) hs
    have hb := hov (by omega) (by omega)
    have e : wrap32 ((0 + (j : Int)) * stride) = (j : Int) * stride := by
      rw [zero_add]; exact wrap32_of_range (by omega) (by omega)
    refine ⟨j, by omega, ?_, ?_⟩
    · rw [e]; omega
    · rw [e, hcw]; omega

theorem rowsFit_of_valid {stride w h : Int} {len : Nat} (hw0 : 0 ≤ w) (hw1 : w < 2147483647)
    (hh0 : 0 ≤ h) (hh1 : h < 2147483647) (hs : 0 ≤ stride)
    (hov : 0 < (h + 1) / 2 → 0 < (w + 1) / 2 → ((h + 1) / 2 - 1) * stride < 2147483648)
    (hlen : 0 < (h + 1) / 2 → 0 < (w + 1) / 2 →
      ((h + 1) / 2 - 1) * stride + (w + 1) / 2 ≤ len) :
    RowsFit stride (chroma_width w) (chroma_height h).toNat 0 len := by
  rw [chroma_width_eq hw0 hw1, chroma_height_eq hh0 hh1]
  have hcw : (toSizeT ((w + 1) / 2) : Int) = (w + 1) / 2 :=
    toSizeT_of_range (by omega) (by omega)
  have hch : (((h + 1) / 2).toNat : Int) = (h + 1) / 2 := Int.toNat_of_nonneg (by omega)
  by_cases hz : toSizeT ((w + 1) / 2) = 0
  · exact Or.inl hz
  · refine Or.inr fun j hj => ?_
    have hpos : 0 < (w + 1) / 2 := by omega
    have hjc : (j : Int) ≤ (h + 1) / 2 - 1 := by omega
    have hle : (j : Int) * stride ≤ ((h + 1) / 2 - 1) * stride :=
      mul_le_mul_of_nonneg_right hjc hs
    have hnn : 0 ≤ (j : Int) * stride := mul_nonneg (by omega) hs
    have hb := hov (by omega) hpos
    have hl := hlen (by omega) hpos
    have e : wrap32 ((0 + (j : Int)) * stride) = (j : Int) * stride := by
      rw [zero_add]; exact wrap32_of_range (by omega) (by omega)
    rw [e, hcw]
    omega

/-- The fill of one chroma plane on a geometry without `int` overflow and a buffer that
holds the active region: the loop completes, the length is kept, the active region
holds the constant and every other byte is kept. -/
theorem plane_fill (sepia : Byte) {stride w h : Int} (buf : List Byte)
    (hw0 : 0 ≤ w) (hw1 : w < 2147483647)
    (hh0 : 0 ≤ h) (hh1 : h < 2147483647) (hs : 0 ≤ stride)
    (hov : 0 < (h + 1) / 2 → 0 < (w + 1) / 2 → ((h + 1) / 2 - 1) * stride < 2147483648)
    (hlen : 0 < (h + 1) / 2 → 0 < (w + 1) / 2 →
      ((h + 1) / 2 - 1) * stride + (w + 1) / 2 ≤ buf.length) :
    ∃ b, fillRows sepia stride (chroma_width w) (chroma_height h).toNat 0 buf = some b ∧
      b.length = buf.length ∧
      (∀ i : Nat, InRegion stride ((w + 1) / 2) ((h + 1) / 2) i → b[i]? = some sepia) ∧
      (∀ i : Nat, ¬ InRegion stride ((w + 1) / 2) ((h + 1) / 2) i → b[i]? = buf[i]?) := by
  have hfit := rowsFit_of_valid hw0 hw1 hh0 hh1 hs hov hlen
  have hsome := (fillRows_isSome_iff sepia stride (chroma_width w)
    (chroma_height h).toNat 0 buf).2 hfit
  obtain ⟨b, hb⟩ := Option.isSome_iff_exists.1 hsome
  obtain ⟨hl, hwr, hnw⟩ := fillRows_spec sepia stride (chroma_width w) _ 0 buf b hb
  refine ⟨b, hb, hl, ?_, ?_⟩
  · intro i hi
    refine hwr i ((written_iff_inRegion hw0 hw1 hh0 hh1 hs hov i).2 hi) ?_
    obtain ⟨r, c, hr0, hr1, hc0, hc1, he⟩ := hi
    have hl2 := hlen (by omega) (by omega)
    have hle : r * stride ≤ ((h + 1) / 2 - 1) * stride :=
      mul_le_mul_of_nonneg_right (by omega) hs
    omega
  · intro i hi
    exact hnw i (fun hc => hi ((written_iff_inRegion hw0 hw1 hh0 hh1 hs hov i).1 hc))

theorem tdiv_two_nonpos {x : Int} (h : x ≤ 1) : Int.tdiv x 2 ≤ 0 := by
  rcases le_or_lt 0 x with h0 | h0
  · rw [Int.tdiv_eq_ediv h0 (by omega)]
    omega
  · have e : x = -(-x) := by ring
    rw [e, Int.neg_tdiv, Int.tdiv_eq_ediv (by omega) (by omega)]
    omega

theorem ceil_half (w : Int) : ⌈(w : ℚ) / 2⌉ = (w + 1) / 2 := by
  rw [Int.ceil_eq_iff]
  have h1 : 2 * ((w + 1) / 2) ≤ w + 1 := by omega
  have h2 : w ≤ 2 * ((w + 1) / 2) := by omega
  have h1' : (2 : ℚ) * (((w + 1) / 2 : Int) : ℚ) ≤ (w : ℚ) + 1 := by exact_mod_cast h1
  have h2' : (w : ℚ) ≤ 2 * (((w + 1) / 2 : Int) : ℚ) := by exact_mod_cast h2
  constructor <;> linarith

theorem applySepiaFilter_of_fills {y u v u1 v1 : List Byte}
    (yStride uStride vStride width height : Int)
    (hu : fillRows sepia_u uStride (chroma_width width) (chroma_height height).toNat 0 u
      = some u1)
    (hv : fillRows sepia_v vStride (chroma_width width) (chroma_height height).toNat 0 v
      = some v1) :
    applySepiaFilter ⟨some y, some u, some v⟩ yStride uStride vStride width height
      = some ⟨some y, some u1, some v1⟩ := by
  simp only [applySepiaFilter, hu, hv, Option.some_bind]

theorem applySepiaFilter_of_u_fault {y u v : List Byte}
    (yStride uStride vStride width height : Int)
    (hu : fillRows sepia_u uStride (chroma_width width) (chroma_height height).toNat 0 u
      = none) :
    applySepiaFilter ⟨some y, some u, some v⟩ yStride uStride vStride width height = none := by
  simp only [applySepiaFilter, hu, Option.none_bind]

theorem fillRows_fault (sepia : Byte) (stride cw : Int) (rows : Nat) (r : Int)
    (buf : List Byte) (hn : toSizeT cw ≠ 0)
    (hbad : ¬ (0 ≤ wrap32 (r * stride) ∧ wrap32 (r * stride) + toSizeT cw ≤ buf.length)) :
    fillRows sepia stride cw (rows + 1) r buf = none := by
  have h : memset buf (wrap32 (r * stride)) sepia (toSizeT cw) = none := by
    unfold memset
    rw [if_neg hn, if_neg hbad]
  simp only [fillRows, h, Option.none_bind]

theorem fillRows_zero_count (sepia : Byte) (stride cw : Int) (hz : toSizeT cw = 0) :
    ∀ (rows : Nat) (r : Int) (buf : List Byte),
      fillRows sepia stride cw rows r buf = some buf := by
  intro rows
  induction rows with
  | zero => intro r buf; rfl
  | succ rows ih =>
    intro r buf
    have h : memset buf (wrap32 (r * stride)) sepia (toSizeT cw) = some buf := by
      unfold memset
      rw [if_pos hz]
    simp only [fillRows, h, Option.some_bind]
    exact ih (r + 1) buf

theorem fillRows_idem (sepia : Byte) (stride cw : Int) (rows : Nat) (r : Int)
    (buf b : List Byte) (h : fillRows sepia stride cw rows r buf = some b) :
    fillRows sepia stride cw rows r b = some b := by
  obtain ⟨hl, hw, hn⟩ := fillRows_spec sepia stride cw rows r buf b h
  have hfit : RowsFit stride cw rows r b.length := by
    rw [hl]
    exact (fillRows_isSome_iff sepia stride cw rows r buf).1 (by simp [h])
  obtain ⟨b2, hb2⟩ := Option.isSome_iff_exists.1
    ((fillRows_isSome_iff sepia stride cw rows r b).2 hfit)
  obtain ⟨hl2, hw2, hn2⟩ := fillRows_spec sepia stride cw rows r b b2 hb2
  rw [hb2]
  congr 1
  apply List.ext_getElem?
  intro i
  by_cases hi : Written stride cw rows r i
  · by_cases hlt : i < b.length
    · rw [hw2 i hi hlt, hw i hi (by omega)]
    · rw [List.getElem?_eq_none (by omega), List.getElem?_eq_none (by omega)]
  · exact hn2 i hi

theorem applySepiaFilter_eq_some {f g : Frame} {yStride uStride vStride width height : Int}
    (h : applySepiaFilter f yStride uStride vStride width height = some g) :
    g = f ∨ ∃ y u v u1 v1, f = ⟨some y, some u, some v⟩ ∧ g = ⟨some y, some u1, some v1⟩ ∧
      fillRows sepia_u uStride (chroma_width width) (chroma_height height).toNat 0 u
        = some u1 ∧
      fillRows sepia_v vStride (chroma_width width) (chroma_height height).toNat 0 v
        = some v1 := by
  obtain ⟨y, u, v⟩ := f
  cases y with
  | none => left; exact (Option.some.inj h).symm
  | some y =>
    cases u with
    | none => left; exact (Option.some.inj h).symm
    | some u =>
      cases v with
      | none => left; exact (Option.some.inj h).symm
      | some v =>
        right
        simp only [applySepiaFilter] at h
        cases hu : fillRows sepia_u uStride (chroma_width width)
            (chroma_height height).toNat 0 u with
        | none => simp [hu] at h
        | some u1 =>
          cases hv : fillRows sepia_v vStride (chroma_width width)
              (chroma_height height).toNat 0 v with
          | none => simp [hu, hv] at h
          | some v1 =>
            simp only [hu, hv, Option.some_bind, Option.some.injEq] at h
            exact ⟨y, u, v, u1, v1, rfl, h.symm, hu, hv⟩

theorem not_inRegion_of_padding {stride cw ch r c : Int} {i : Nat} (hcw : 0 ≤ cw)
    (hr0 : 0 ≤ r) (hc0 : cw ≤ c) (hc1 : c < stride) (hi : (i : Int) = r * stride + c) :
    ¬ InRegion stride cw ch i := by
  rintro ⟨r2, c2, hr20, -, hc20, hc21, hi2⟩
  rcases lt_trichotomy r r2 with hlt | heq | hgt
  · have h1 : (r + 1) * stride ≤ r2 * stride :=
      mul_le_mul_of_nonneg_right (by omega) (by omega)
    have h2 : (r + 1) * stride = r * stride + stride := by ring
    omega
  · subst heq
    omega
  · have h1 : (r2 + 1) * stride ≤ r * stride :=
      mul_le_mul_of_nonneg_right (by omega) (by omega)
    have h2 : (r2 + 1) * stride = r2 * stride + stride := by ring
    omega

theorem inRegion_lt {stride cw ch : Int} {i : Nat} (hs : cw ≤ stride)
    (h : InRegion stride cw ch i) : (i : Int) < ch * stride := by
  obtain ⟨r, c, hr0, hr1, hc0, hc1, hi⟩ := h
  have h1 : (r + 1) * stride ≤ ch * stride :=
    mul_le_mul_of_nonneg_right (by omega) (by omega)
  have h2 : (r + 1) * stride = r * stride + stride := by ring
  omega

theorem inRegion_lt_length {stride cw ch : Int} {i len : Nat} (hs : 0 ≤ stride)
    (hlen : 0 < ch → 0 < cw → (ch - 1) * stride + cw ≤ len)
    (h : InRegion stride cw ch i) : i < len := by
  obtain ⟨r, c, hr0, hr1, hc0, hc1, hi⟩ := h
  have h1 : r * stride ≤ (ch - 1) * stride := mul_le_mul_of_nonneg_right (by omega) hs
  have h2 := hlen (by omega) (by omega)
  omega

theorem applySepiaFilter_of_rows_zero (y u v : List Byte)
    (yStride uStride vStride width height : Int) (h0 : (chroma_height height).toNat = 0) :
    applySepiaFilter ⟨some y, some u, some v⟩ yStride uStride vStride width height
      = some ⟨some y, some u, some v⟩ := by
  apply applySepiaFilter_of_fills <;> rw [h0] <;> rfl

theorem chroma_height_nonpos {height : Int} (hmin : -2147483648 ≤ height) (h : height ≤ 0) :
    chroma_height height ≤ 0 := by
  unfold chroma_height
  rw [wrap32_of_range (by omega) (by omega)]
  exact tdiv_two_nonpos (by omega)

theorem not_written_of_empty {stride cw : Int} {rows : Nat} (r : Int) (i : Nat)
    (h : rows = 0 ∨ toSizeT cw = 0) : ¬ Written stride cw rows r i := by
  rintro ⟨j, hj, h1, h2⟩
  rcases h with h | h
  · omega
  · rw [h] at h2
    simp only [Nat.cast_zero, add_zero] at h2
    omega

theorem memset_embed (pre post : List Byte) {buf b : List Byte} {off : Int} {val : Byte}
    {n : Nat} (h : memset buf off val n = some b) :
    memset (pre ++ buf ++ post) (pre.length + off) val n = some (pre ++ b ++ post) := by
  have hfit := (memset_isSome_iff buf off val n).1 (by simp [h])
  have hbig : (memset (pre ++ buf ++ post) (pre.length + off) val n).isSome := by
    rw [memset_isSome_iff]
    rcases hfit with h0 | ⟨h0, h1⟩
    · exact Or.inl h0
    · refine Or.inr ⟨by omega, ?_⟩
      simp only [List.length_append, Nat.cast_add]
      omega
  obtain ⟨m, hm⟩ := Option.isSome_iff_exists.1 hbig
  obtain ⟨hl, hg⟩ := memset_spec h
  obtain ⟨hml, hmg⟩ := memset_spec hm
  rw [hm]
  congr 1
  apply List.ext_getElem?
  intro i
  rw [hmg i]
  by_cases h1 : i < pre.length
  · have hc : ¬ ((pre.length : Int) + off ≤ i ∧ (i : Int) < pre.length + off + n) := by omega
    rw [if_neg hc, List.append_assoc, List.append_assoc, List.getElem?_append_left h1,
      List.getElem?_append_left h1]
  · by_cases h2 : i < pre.length + buf.length
    · have e1 : (pre ++ buf ++ post)[i]? = buf[i - pre.length]? := by
        rw [List.getElem?_append_left (by simp; omega),
          List.getElem?_append_right (by omega)]
      have e2 : (pre ++ b ++ post)[i]? = b[i - pre.length]? := by
        rw [List.getElem?_append_left (by simp; omega),
          List.getElem?_append_right (by omega)]
      rw [e1, e2, hg (i - pre.length)]
      have hk : ((i - pre.length : Nat) : Int) = (i : Int) - pre.length := by omega
      by_cases hc : (pre.length : Int) + off ≤ i ∧ (i : Int) < pre.length + off + n
      · rw [if_pos hc, if_pos (by omega)]
      · rw [if_neg hc, if_neg (by omega)]
    · have hc : ¬ ((pre.length : Int) + off ≤ i ∧ (i : Int) < pre.length + off + n) := by
        omega
      rw [if_neg hc, List.getElem?_append_right (by simp; omega),
        List.getElem?_append_right (by simp; omega)]
      simp only [List.length_append, hl]

theorem fillRows_embed (sepia : Byte) (stride cw : Int) (pre post : List Byte) :
    ∀ (rows : Nat) (r : Int) (buf b : List Byte),
      fillRows sepia stride cw rows r buf = some b →
      fillRowsFlat sepia pre.length stride cw rows r (pre ++ buf ++ post)
        = some (pre ++ b ++ post) := by
  intro rows
  induction rows with
  | zero =>
    intro r buf b h
    simp only [fillRows, Option.some.injEq] at h
    subst h
    rfl
  | succ rows ih =>
    intro r buf b h
    simp only [fillRows] at h
    cases hm : memset buf (wrap32 (r * stride)) sepia (toSizeT cw) with
    | none => simp [hm] at h
    | some b1 =>
      rw [hm] at h
      simp only [Option.some_bind] at h
      simp only [fillRowsFlat, memset_embed pre post hm, Option.some_bind]
      exact ih (r + 1) b1 b h

theorem fillRowsUV_embed (u_stride v_stride cw : Int) (y : List Byte) :
    ∀ (rows : Nat) (r : Int) (u v u1 v1 : List Byte),
      fillRowsUV u_stride v_stride cw rows r u v = some (u1, v1) →
      fillRowsUVFlat y.length (y.length + u.length) u_stride v_stride cw rows r (y ++ u ++ v)
        = some (y ++ u1 ++ v1) := by
  intro rows
  induction rows with
  | zero =>
    intro r u v u1 v1 h
    simp only [fillRowsUV, Option.some.injEq, Prod.mk.injEq] at h
    obtain ⟨rfl, rfl⟩ := h
    rfl
  | succ rows ih =>
    intro r u v u1 v1 h
    simp only [fillRowsUV] at h
    cases hu : memset u (wrap32 (r * u_stride)) sepia_u (toSizeT cw) with
    | none => simp [hu] at h
    | some ua =>
      cases hv : memset v (wrap32 (r * v_stride)) sepia_v (toSizeT cw) with
      | none => simp [hu, hv] at h
      | some va =>
        simp only [hu, hv, Option.some_bind] at h
        have hla : ua.length = u.length := (memset_spec hu).1
        have e1 := memset_embed y v hu
        have e2 := memset_embed (y ++ ua) [] hv
        simp only [List.append_nil, List.length_append, Nat.cast_add, hla] at e2
        simp only [fillRowsUVFlat, e1, Option.some_bind, e2]
        have := ih (r + 1) ua va u1 v1 h
        rw [hla] at this
        exact this

theorem applySepiaFilter_of_missing (f : Frame) (yStride uStride vStride width height : Int)
    (hmiss : ¬ ∃ y u v, f = ⟨some y, some u, some v⟩) :
    applySepiaFilter f yStride uStride vStride width height = some f := by
  obtain ⟨y, u, v⟩ := f
  cases y with
  | none => rfl
  | some y =>
    cases u with
    | none => rfl
    | some u =>
      cases v with
      | none => rfl
      | some v => exact absurd ⟨y, u, v, rfl⟩ hmiss

/-- A call whose fills all stay inside the chroma buffer they are issued on: both
routines complete, each plane of the result is the value of its own row loop, and on the
contiguous layout `Y ++ U ++ V` of one address space both routines leave the same
three planes behind. -/
theorem defined_call (y u v : List Byte) (yStride uStride vStride width height : Int)
    (hu : RowsFit uStride (chroma_width width) (chroma_height height).toNat 0 u.length)
    (hv : RowsFit vStride (chroma_width width) (chroma_height height).toNat 0 v.length) :
    ∃ u1 v1 : List Byte,
      fillRows sepia_u uStride (chroma_width width) (chroma_height height).toNat 0 u
        = some u1 ∧
      fillRows sepia_v vStride (chroma_width width) (chroma_height height).toNat 0 v
        = some v1 ∧
      u1.length = u.length ∧ v1.length = v.length ∧
      applySepiaFilter ⟨some y, some u, some v⟩ yStride uStride vStride width height
        = some ⟨some y, some u1, some v1⟩ ∧
      Java_io_agora_agora_1rtc_1flutter_1example_VideoRawDataController_nativeApplySepiaFilter
          ⟨some y, some u, some v⟩ yStride uStride vStride width height
        = some ⟨some y, some u1, some v1⟩ ∧
      applySepiaFilterFlat (y ++ u ++ v) (some 0) (some y.length)
          (some (y.length + u.length)) yStride uStride vStride width height
        = some (y ++ u1 ++ v1) ∧
      nativeApplySepiaFilterFlat (y ++ u ++ v) (some 0) (some y.length)
          (some (y.length + u.length)) yStride uStride vStride width height
        = some (y ++ u1 ++ v1) := by
  obtain ⟨u1, hu1⟩ := Option.isSome_iff_exists.1
    ((fillRows_isSome_iff sepia_u uStride (chroma_width width)
      (chroma_height height).toNat 0 u).2 hu)
  obtain ⟨v1, hv1⟩ := Option.isSome_iff_exists.1
    ((fillRows_isSome_iff sepia_v vStride (chroma_width width)
      (chroma_height height).toNat 0 v).2 hv)
  have hlu : u1.length = u.length := (fillRows_spec _ _ _ _ _ _ _ hu1).1
  have hlv : v1.length = v.length := (fillRows_spec _ _ _ _ _ _ _ hv1).1
  have hrun := applySepiaFilter_of_fills (y := y) yStride uStride vStride width height hu1 hv1
  refine ⟨u1, v1, hu1, hv1, hlu, hlv, hrun,
    (native_eq_applySepiaFilter _ _ _ _ _ _).trans hrun, ?_, ?_⟩
  · have e1 := fillRows_embed sepia_u uStride (chroma_width width) y v _ 0 u u1 hu1
    have e2 := fillRows_embed sepia_v vStride (chroma_width width) (y ++ u1) [] _ 0 v v1 hv1
    simp only [List.append_nil, List.length_append, Nat.cast_add, hlu] at e2
    simp only [applySepiaFilterFlat, e1, Option.some_bind, e2]
  · have huv : fillRowsUV uStride vStride (chroma_width width) (chroma_height height).toNat 0
        u v = some (u1, v1) := by
      rw [fillRowsUV_eq, hu1, hv1]
      rfl
    simp only [nativeApplySepiaFilterFlat]
    exact fillRowsUV_embed uStride vStride (chroma_width width) y _ 0 u v u1 v1 huv

/-! ## The properties -/

/-- C1 (as stated, refuted): with `width = 1`, `height = 2147483647` and both strides `0`,
one byte per chroma plane holds offset `(chromaHeight - 1) * 0 + chromaWidth - 1 = 0`, yet
`height + 1` leaves the `int` range, the loops run zero times and the U byte at offset
`0 * 0 + 0` is still `0x80`, not `100`. -/
theorem constant_fill_counterexample :
    (0 : Int) < (2147483647 + 1) / 2 ∧ (0 : Int) < (1 + 1) / 2 ∧
    (((2147483647 + 1) / 2 - 1) * 0 + (1 + 1) / 2 - 1 : Int) < ([128] : List Byte).length ∧
    applySepiaFilter ⟨some [0], some [128], some [128]⟩ 0 0 0 1 2147483647
      = some ⟨some [0], some [128], some [128]⟩ ∧
    ([128] : List Byte)[((0 : Int) * 0 + 0).toNat]? ≠ some 100 := by
  decide

/-- C1 (amended): constant fill.  All planes present, `width`, `height` and both strides
non-negative, each chroma buffer long enough to hold offset
`(chromaHeight - 1) * stride + chromaWidth - 1`, and no `int` overflow (`width` and
`height` at most `2^31 - 2`, last row offset `(chromaHeight - 1) * stride` at most
`2^31 - 1`): the call completes on both platforms and afterwards the U byte at
`r * uStride + c` is `100` and the V byte at `r * vStride + c` is `160` for every row
`r < chromaHeight` and column `c < chromaWidth`. -/
theorem constant_fill (y u v : List Byte) (yStride uStride vStride width height : Int)
    (hw : 0 ≤ width) (hh : 0 ≤ height) (hus : 0 ≤ uStride) (hvs : 0 ≤ vStride)
    (hulen : ((height + 1) / 2 - 1) * uStride + (width + 1) / 2 - 1 < u.length)
    (hvlen : ((height + 1) / 2 - 1) * vStride + (width + 1) / 2 - 1 < v.length)
    (hwmax : width ≤ 2147483646) (hhmax : height ≤ 2147483646)
    (huov : ((height + 1) / 2 - 1) * uStride ≤ 2147483647)
    (hvov : ((height + 1) / 2 - 1) * vStride ≤ 2147483647) :
    ∃ u1 v1 : List Byte,
      applySepiaFilter ⟨some y, some u, some v⟩ yStride uStride vStride width height
        = some ⟨some y, some u1, some v1⟩ ∧
      Java_io_agora_agora_1rtc_1flutter_1example_VideoRawDataController_nativeApplySepiaFilter
          ⟨some y, some u, some v⟩ yStride uStride vStride width height
        = some ⟨some y, some u1, some v1⟩ ∧
      ∀ r c : Int, 0 ≤ r → r < (height + 1) / 2 → 0 ≤ c → c < (width + 1) / 2 →
        u1[(r * uStride + c).toNat]? = some 100 ∧ v1[(r * vStride + c).toNat]? = some 160 := by
  obtain ⟨u1, hu1, -, hur, -⟩ := plane_fill sepia_u u hw (by omega) hh (by omega) hus
    (fun _ _ => by omega) (fun _ _ => by omega)
  obtain ⟨v1, hv1, -, hvr, -⟩ := plane_fill sepia_v v hw (by omega) hh (by omega) hvs
    (fun _ _ => by omega) (fun _ _ => by omega)
  have hrun := applySepiaFilter_of_fills (y := y) yStride uStride vStride width height hu1 hv1
  refine ⟨u1, v1, hrun, (native_eq_applySepiaFilter _ _ _ _ _ _).trans hrun, ?_⟩
  intro r c hr0 hr1 hc0 hc1
  have hun : 0 ≤ r * uStride + c := add_nonneg (mul_nonneg hr0 hus) hc0
  have hvn : 0 ≤ r * vStride + c := add_nonneg (mul_nonneg hr0 hvs) hc0
  exact ⟨hur _ ⟨r, c, hr0, hr1, hc0, hc1, Int.toNat_of_nonneg hun⟩,
    hvr _ ⟨r, c, hr0, hr1, hc0, hc1, Int.toNat_of_nonneg hvn⟩⟩

/-- C1 (witness): the scenario `width = 4`, `height = 4`, strides `4`, U and V pre-filled
with `0x80`. -/
theorem constant_fill_witness :
    ∃ u1 v1 : List Byte,
      applySepiaFilter ⟨some (List.replicate 16 0), some (List.replicate 8 128),
          some (List.replicate 8 128)⟩ 4 4 4 4 4
        = some ⟨some (List.replicate 16 0), some u1, some v1⟩ ∧
      Java_io_agora_agora_1rtc_1flutter_1example_VideoRawDataController_nativeApplySepiaFilter
          ⟨some (List.replicate 16 0), some (List.replicate 8 128),
          some (List.replicate 8 128)⟩ 4 4 4 4 4
        = some ⟨some (List.replicate 16 0), some u1, some v1⟩ ∧
      ∀ r c : Int, 0 ≤ r → r < (4 + 1) / 2 → 0 ≤ c → c < (4 + 1) / 2 →
        u1[(r * 4 + c).toNat]? = some 100 ∧ v1[(r * 4 + c).toNat]? = some 160 :=
  constant_fill (List.replicate 16 0) (List.replicate 8 128) (List.replicate 8 128) 4 4 4 4 4
    (by decide) (by decide) (by decide) (by decide) (by decide) (by decide) (by decide)
    (by decide) (by decide) (by decide)

/-- C2: no-op on missing input.  When at least one of the Y, U, V planes is null, for every
stride, width and height the call returns normally on both platforms and the frame,
hence every byte of the planes that are present, is unchanged. -/
theorem noop_on_missing_plane (f : Frame) (yStride uStride vStride width height : Int)
    (hmiss : f.yBuffer = none ∨ f.uBuffer = none ∨ f.vBuffer = none) :
    applySepiaFilter f yStride uStride vStride width height = some f ∧
    Java_io_agora_agora_1rtc_1flutter_1example_VideoRawDataController_nativeApplySepiaFilter
        f yStride uStride vStride width height = some f := by
  have h : applySepiaFilter f yStride uStride vStride width height = some f := by
    obtain ⟨y, u, v⟩ := f
    simp only at hmiss
    rcases hmiss with h | h | h <;> subst h
    · rfl
    · cases y <;> rfl
    · cases y <;> cases u <;> rfl
  exact ⟨h, (native_eq_applySepiaFilter _ _ _ _ _ _).trans h⟩

/-- C2 (witness): the scenario `width = 4`, `height = 4` with the V plane missing. -/
theorem noop_on_missing_plane_witness :
    applySepiaFilter ⟨some (List.replicate 16 0), some (List.replicate 8 128), none⟩
        4 4 4 4 4
      = some ⟨some (List.replicate 16 0), some (List.replicate 8 128), none⟩ ∧
    Java_io_agora_agora_1rtc_1flutter_1example_VideoRawDataController_nativeApplySepiaFilter
        ⟨some (List.replicate 16 0), some (List.replicate 8 128), none⟩ 4 4 4 4 4
      = some ⟨some (List.replicate 16 0), some (List.replicate 8 128), none⟩ :=
  noop_on_missing_plane ⟨some (List.replicate 16 0), some (List.replicate 8 128), none⟩
    4 4 4 4 4 (Or.inr (Or.inr rfl))


/-- C3 (as stated, refuted): with `width = 2147483647`, `height = 1`, strides `2^30` (equal
to `chromaWidth = 2^30`) and chroma buffers of `2^30` bytes, which hold the one active row,
`width + 1` leaves the `int` range, `chroma_width` is `-2^30`, and the first `memset`
is asked for `2^64 - 2^30` bytes: the fill leaves the buffer and the call has no result. -/
theorem padding_preserved_counterexample :
    ((2147483647 + 1) / 2 : Int) ≤ 1073741824 ∧
    (((1 + 1) / 2 - 1) * 1073741824 + (2147483647 + 1) / 2 : Int)
      ≤ (List.replicate 1073741824 (128 : Byte)).length ∧
    toSizeT (chroma_width 2147483647) = 18446744072635809792 ∧
    applySepiaFilter ⟨some (List.replicate 2147483647 0),
        some (List.replicate 1073741824 128), some (List.replicate 1073741824 128)⟩
        2147483647 1073741824 1073741824 2147483647 1 = none := by
  refine ⟨by decide, ?_, by decide, ?_⟩
  · rw [List.length_replicate]; decide
  · apply applySepiaFilter_of_u_fault
    have hrows : (chroma_height 1).toNat = 0 + 1 := by decide
    rw [hrows]
    apply fillRows_fault
    · decide
    · rw [List.length_replicate]; decide

/-- C3 (amended): padding preserved.  All planes present, `width` and `height`
non-negative, both strides at least `chromaWidth`, buffers large enough for the fill, and
no `int` overflow (`width` and `height` at most `2^31 - 2`, last row offset
`(chromaHeight - 1) * stride` at most `2^31 - 1`): the call completes on both platforms
and every byte of U (resp. V) whose offset is not `r * stride + c` with `r < chromaHeight`
and `c < chromaWidth` keeps its value; in particular the bytes at columns
`[chromaWidth, stride)` of the rows `r < chromaHeight` and all bytes from offset
`chromaHeight * stride` on. -/
theorem padding_preserved (y u v : List Byte) (yStride uStride vStride width height : Int)
    (hw : 0 ≤ width) (hh : 0 ≤ height)
    (hus : (width + 1) / 2 ≤ uStride) (hvs : (width + 1) / 2 ≤ vStride)
    (hulen : 0 < (height + 1) / 2 → 0 < (width + 1) / 2 →
      ((height + 1) / 2 - 1) * uStride + (width + 1) / 2 ≤ u.length)
    (hvlen : 0 < (height + 1) / 2 → 0 < (width + 1) / 2 →
      ((height + 1) / 2 - 1) * vStride + (width + 1) / 2 ≤ v.length)
    (hwmax : width ≤ 2147483646) (hhmax : height ≤ 2147483646)
    (huov : ((height + 1) / 2 - 1) * uStride ≤ 2147483647)
    (hvov : ((height + 1) / 2 - 1) * vStride ≤ 2147483647) :
    ∃ u1 v1 : List Byte,
      applySepiaFilter ⟨some y, some u, some v⟩ yStride uStride vStride width height
        = some ⟨some y, some u1, some v1⟩ ∧
      Java_io_agora_agora_1rtc_1flutter_1example_VideoRawDataController_nativeApplySepiaFilter
          ⟨some y, some u, some v⟩ yStride uStride vStride width height
        = some ⟨some y, some u1, some v1⟩ ∧
      (∀ i : Nat,
        (¬ ∃ r c : Int, 0 ≤ r ∧ r < (height + 1) / 2 ∧ 0 ≤ c ∧ c < (width + 1) / 2 ∧
            (i : Int) = r * uStride + c) → u1[i]? = u[i]?) ∧
      (∀ i : Nat,
        (¬ ∃ r c : Int, 0 ≤ r ∧ r < (height + 1) / 2 ∧ 0 ≤ c ∧ c < (width + 1) / 2 ∧
            (i : Int) = r * vStride + c) → v1[i]? = v[i]?) ∧
      (∀ r c : Int, 0 ≤ r → r < (height + 1) / 2 → (width + 1) / 2 ≤ c →
        (c < uStride → u1[(r * uStride + c).toNat]? = u[(r * uStride + c).toNat]?) ∧
        (c < vStride → v1[(r * vStride + c).toNat]? = v[(r * vStride + c).toNat]?)) ∧
      (∀ i : Nat,
        ((height + 1) / 2 * uStride ≤ (i : Int) → u1[i]? = u[i]?) ∧
        ((height + 1) / 2 * vStride ≤ (i : Int) → v1[i]? = v[i]?)) := by
  have hcw : 0 ≤ (width + 1) / 2 := by omega
  obtain ⟨u1, hu1, -, -, hun⟩ := plane_fill sepia_u u hw (by omega) hh (by omega)
    (by omega) (fun _ _ => by omega) hulen
  obtain ⟨v1, hv1, -, -, hvn⟩ := plane_fill sepia_v v hw (by omega) hh (by omega)
    (by omega) (fun _ _ => by omega) hvlen
  have hrun := applySepiaFilter_of_fills (y := y) yStride uStride vStride width height hu1 hv1
  refine ⟨u1, v1, hrun, (native_eq_applySepiaFilter _ _ _ _ _ _).trans hrun, hun, hvn, ?_, ?_⟩
  · intro r c hr0 hr1 hc0
    refine ⟨fun hc1 => hun _ ?_, fun hc1 => hvn _ ?_⟩
    · have hnn : 0 ≤ r * uStride + c := add_nonneg (mul_nonneg hr0 (by omega)) (by omega)
      exact not_inRegion_of_padding hcw hr0 hc0 hc1 (Int.toNat_of_nonneg hnn)
    · have hnn : 0 ≤ r * vStride + c := add_nonneg (mul_nonneg hr0 (by omega)) (by omega)
      exact not_inRegion_of_padding hcw hr0 hc0 hc1 (Int.toNat_of_nonneg hnn)
  · intro i
    refine ⟨fun hi => hun i fun hc => ?_, fun hi => hvn i fun hc => ?_⟩
    · have := inRegion_lt hus hc
      omega
    · have := inRegion_lt hvs hc
      omega

/-- C3 (witness): `width = 4`, `height = 4`, strides `4`, chroma buffers of four rows. -/
theorem padding_preserved_witness :
    ∃ u1 v1 : List Byte,
      applySepiaFilter ⟨some (List.replicate 16 0), some (List.replicate 16 128),
          some (List.replicate 16 128)⟩ 4 4 4 4 4
        = some ⟨some (List.replicate 16 0), some u1, some v1⟩ ∧
      Java_io_agora_agora_1rtc_1flutter_1example_VideoRawDataController_nativeApplySepiaFilter
          ⟨some (List.replicate 16 0), some (List.replicate 16 128),
          some (List.replicate 16 128)⟩ 4 4 4 4 4
        = some ⟨some (List.replicate 16 0), some u1, some v1⟩ ∧
      (∀ i : Nat,
        (¬ ∃ r c : Int, 0 ≤ r ∧ r < (4 + 1) / 2 ∧ 0 ≤ c ∧ c < (4 + 1) / 2 ∧
            (i : Int) = r * 4 + c) → u1[i]? = (List.replicate 16 (128 : Byte))[i]?) ∧
      (∀ i : Nat,
        (¬ ∃ r c : Int, 0 ≤ r ∧ r < (4 + 1) / 2 ∧ 0 ≤ c ∧ c < (4 + 1) / 2 ∧
            (i : Int) = r * 4 + c) → v1[i]? = (List.replicate 16 (128 : Byte))[i]?) ∧
      (∀ r c : Int, 0 ≤ r → r < (4 + 1) / 2 → (4 + 1) / 2 ≤ c →
        (c < 4 → u1[(r * 4 + c).toNat]? = (List.replicate 16 (128 : Byte))[(r * 4 + c).toNat]?) ∧
        (c < 4 → v1[(r * 4 + c).toNat]? = (List.replicate 16 (128 : Byte))[(r * 4 + c).toNat]?)) ∧
      (∀ i : Nat,
        ((4 + 1) / 2 * 4 ≤ (i : Int) → u1[i]? = (List.replicate 16 (128 : Byte))[i]?) ∧
        ((4 + 1) / 2 * 4 ≤ (i : Int) → v1[i]? = (List.replicate 16 (128 : Byte))[i]?)) :=
  padding_preserved (List.replicate 16 0) (List.replicate 16 128) (List.replicate 16 128)
    4 4 4 4 4 (by decide) (by decide) (by decide) (by decide) (fun _ _ => by decide)
    (fun _ _ => by decide) (by decide) (by decide) (by decide) (by decide)

/-- C4 (as stated, refuted): a contiguous frame in one address space, Y in bytes
`0 .. 15`, U in bytes `16 .. 19`, V in bytes `20 .. 23`, `width = 4`, `height = 4`,
`uStride = -2`, `vStride = 2`.  Row 1 of U is filled from address `16 - 2 = 14`, so the
Y bytes 14 and 15 become `100` on both platforms; the bounds-checked call on the three
separate buffers has no result. -/
theorem luma_unchanged_counterexample :
    applySepiaFilterFlat
        (List.replicate 16 16 ++ List.replicate 4 128 ++ List.replicate 4 128)
        (some 0) (some 16) (some 20) 4 (-2) 2 4 4
      = some ([16, 16, 16, 16, 16, 16, 16, 16, 16, 16, 16, 16, 16, 16, 100, 100]
          ++ [100, 100, 128, 128] ++ [160, 160, 160, 160]) ∧
    nativeApplySepiaFilterFlat
        (List.replicate 16 16 ++ List.replicate 4 128 ++ List.replicate 4 128)
        (some 0) (some 16) (some 20) 4 (-2) 2 4 4
      = some ([16, 16, 16, 16, 16, 16, 16, 16, 16, 16, 16, 16, 16, 16, 100, 100]
          ++ [100, 100, 128, 128] ++ [160, 160, 160, 160]) ∧
    ([16, 16, 16, 16, 16, 16, 16, 16, 16, 16, 16, 16, 16, 16, 100, 100] : List Byte)
      ≠ List.replicate 16 16 ∧
    applySepiaFilter
        ⟨some (List.replicate 16 16), some (List.replicate 4 128),
          some (List.replicate 4 128)⟩ 4 (-2) 2 4 4 = none := by
  decide

/-- C4 (amended): chroma-only mutation.  For every frame in which a plane is missing, or
in which all planes are present and every fill the row loops issue stays inside the
chroma buffer it is issued on, the call completes on both platforms and the Y plane of
the result is the Y plane of the input; on the contiguous layout `Y ++ U ++ V` of one
address space both routines finish with the bytes of Y in place. -/
theorem luma_unchanged (f : Frame) (yStride uStride vStride width height : Int)
    (hfit : ∀ y u v : List Byte, f = ⟨some y, some u, some v⟩ →
      RowsFit uStride (chroma_width width) (chroma_height height).toNat 0 u.length ∧
      RowsFit vStride (chroma_width width) (chroma_height height).toNat 0 v.length) :
    ∃ g : Frame,
      applySepiaFilter f yStride uStride vStride width height = some g ∧
      Java_io_agora_agora_1rtc_1flutter_1example_VideoRawDataController_nativeApplySepiaFilter
          f yStride uStride vStride width height = some g ∧
      g.yBuffer = f.yBuffer ∧
      ∀ y u v : List Byte, f = ⟨some y, some u, some v⟩ →
        ∃ u1 v1 : List Byte,
          g = ⟨some y, some u1, some v1⟩ ∧
          applySepiaFilterFlat (y ++ u ++ v) (some 0) (some y.length)
              (some (y.length + u.length)) yStride uStride vStride width height
            = some (y ++ u1 ++ v1) ∧
          nativeApplySepiaFilterFlat (y ++ u ++ v) (some 0) (some y.length)
              (some (y.length + u.length)) yStride uStride vStride width height
            = some (y ++ u1 ++ v1) := by
  by_cases hp : ∃ y u v, f = ⟨some y, some u, some v⟩
  · obtain ⟨y, u, v, rfl⟩ := hp
    obtain ⟨hu, hv⟩ := hfit y u v rfl
    obtain ⟨u1, v1, -, -, -, -, h1, h2, h3, h4⟩ :=
      defined_call y u v yStride uStride vStride width height hu hv
    refine ⟨⟨some y, some u1, some v1⟩, h1, h2, rfl, ?_⟩
    intro y2 u2 v2 he
    cases he
    exact ⟨u1, v1, rfl, h3, h4⟩
  · have h1 := applySepiaFilter_of_missing f yStride uStride vStride width height hp
    refine ⟨f, h1, (native_eq_applySepiaFilter _ _ _ _ _ _).trans h1, rfl, ?_⟩
    intro y u v he
    exact absurd ⟨y, u, v, he⟩ hp

/-- C4 (witness): `width = 4`, `height = 4`, strides `4`, Y plane `0 .. 15`. -/
theorem luma_unchanged_witness :
    ∃ g : Frame,
      applySepiaFilter
          ⟨some [0, 1, 2, 3, 4, 5, 6, 7, 8, 9, 10, 11, 12, 13, 14, 15],
            some (List.replicate 8 128), some (List.replicate 8 128)⟩ 4 4 4 4 4 = some g ∧
      Java_io_agora_agora_1rtc_1flutter_1example_VideoRawDataController_nativeApplySepiaFilter
          ⟨some [0, 1, 2, 3, 4, 5, 6, 7, 8, 9, 10, 11, 12, 13, 14, 15],
            some (List.replicate 8 128), some (List.replicate 8 128)⟩ 4 4 4 4 4 = some g ∧
      g.yBuffer = (⟨some [0, 1, 2, 3, 4, 5, 6, 7, 8, 9, 10, 11, 12, 13, 14, 15],
            some (List.replicate 8 128), some (List.replicate 8 128)⟩ : Frame).yBuffer ∧
      ∀ y u v : List Byte,
        (⟨some [0, 1, 2, 3, 4, 5, 6, 7, 8, 9, 10, 11, 12, 13, 14, 15],
            some (List.replicate 8 128), some (List.replicate 8 128)⟩ : Frame)
          = ⟨some y, some u, some v⟩ →
        ∃ u1 v1 : List Byte,
          g = ⟨some y, some u1, some v1⟩ ∧
          applySepiaFilterFlat (y ++ u ++ v) (some 0) (some y.length)
              (some (y.length + u.length)) 4 4 4 4 4
            = some (y ++ u1 ++ v1) ∧
          nativeApplySepiaFilterFlat (y ++ u ++ v) (some 0) (some y.length)
              (some (y.length + u.length)) 4 4 4 4 4
            = some (y ++ u1 ++ v1) :=
  luma_unchanged
    ⟨some [0, 1, 2, 3, 4, 5, 6, 7, 8, 9, 10, 11, 12, 13, 14, 15],
      some (List.replicate 8 128), some (List.replicate 8 128)⟩ 4 4 4 4 4
    (fun y u v he => by
      cases he
      exact ⟨(fillRows_isSome_iff sepia_u 4 (chroma_width 4) (chroma_height 4).toNat 0
          (List.replicate 8 128)).1 (by decide),
        (fillRows_isSome_iff sepia_v 4 (chroma_width 4) (chroma_height 4).toNat 0
          (List.replicate 8 128)).1 (by decide)⟩)

/-- C5 (as stated, refuted): with `width = 2147483647`, `height = 3`, strides `2^30` (equal
to `chromaWidth = 2^30`) and chroma buffers of `2^31` bytes, which hold the two active
rows, `chroma_width` is `-2^30`, the first `memset` covers `2^64 - 2^30` bytes from offset
`0`, so offset `2^31` is written although it is past the buffer: the out-of-bounds
branch is taken and the call has no result. -/
theorem no_overrun_counterexample :
    ((2147483647 + 1) / 2 : Int) ≤ 1073741824 ∧
    (((3 + 1) / 2 - 1) * 1073741824 + (2147483647 + 1) / 2 : Int)
      ≤ (List.replicate 2147483648 (128 : Byte)).length ∧
    Written 1073741824 (chroma_width 2147483647) (chroma_height 3).toNat 0 2147483648 ∧
    ¬ 2147483648 < (List.replicate 2147483648 (128 : Byte)).length ∧
    applySepiaFilter ⟨some (List.replicate 6442450941 0),
        some (List.replicate 2147483648 128), some (List.replicate 2147483648 128)⟩
        2147483647 1073741824 1073741824 2147483647 3 = none := by
  refine ⟨by decide, ?_, ⟨0, by decide, by decide, by decide⟩, ?_, ?_⟩
  · rw [List.length_replicate]; decide
  · rw [List.length_replicate]; decide
  · apply applySepiaFilter_of_u_fault
    have hrows : (chroma_height 3).toNat = 1 + 1 := by decide
    rw [hrows]
    apply fillRows_fault
    · decide
    · rw [List.length_replicate]; decide

/-- C5 (amended): no overrun.  All planes present, `width` and `height` non-negative, each
stride at least `chromaWidth`, each chroma buffer of length at least
`(chromaHeight - 1) * stride + chromaWidth` when `chromaHeight >= 1`, and no `int`
overflow (`width` and `height` at most `2^31 - 2`, last row offset
`(chromaHeight - 1) * stride` at most `2^31 - 1`): every offset the row loop writes in a
chroma plane is `r * stride + c` with `0 <= r < chromaHeight` and `0 <= c < chromaWidth`,
is below `chromaHeight * stride` and below the buffer length, every fill fits its buffer
and the call has a result on both platforms. -/
theorem no_overrun (y u v : List Byte) (yStride uStride vStride width height : Int)
    (hw : 0 ≤ width) (hh : 0 ≤ height)
    (hus : (width + 1) / 2 ≤ uStride) (hvs : (width + 1) / 2 ≤ vStride)
    (hulen : 0 < (height + 1) / 2 →
      ((height + 1) / 2 - 1) * uStride + (width + 1) / 2 ≤ u.length)
    (hvlen : 0 < (height + 1) / 2 →
      ((height + 1) / 2 - 1) * vStride + (width + 1) / 2 ≤ v.length)
    (hwmax : width ≤ 2147483646) (hhmax : height ≤ 2147483646)
    (huov : ((height + 1) / 2 - 1) * uStride ≤ 2147483647)
    (hvov : ((height + 1) / 2 - 1) * vStride ≤ 2147483647) :
    (∀ i : Nat, Written uStride (chroma_width width) (chroma_height height).toNat 0 i →
      (∃ r c : Int, 0 ≤ r ∧ r < (height + 1) / 2 ∧ 0 ≤ c ∧ c < (width + 1) / 2 ∧
        (i : Int) = r * uStride + c) ∧
      (i : Int) < (height + 1) / 2 * uStride ∧ i < u.length) ∧
    (∀ i : Nat, Written vStride (chroma_width width) (chroma_height height).toNat 0 i →
      (∃ r c : Int, 0 ≤ r ∧ r < (height + 1) / 2 ∧ 0 ≤ c ∧ c < (width + 1) / 2 ∧
        (i : Int) = r * vStride + c) ∧
      (i : Int) < (height + 1) / 2 * vStride ∧ i < v.length) ∧
    RowsFit uStride (chroma_width width) (chroma_height height).toNat 0 u.length ∧
    RowsFit vStride (chroma_width width) (chroma_height height).toNat 0 v.length ∧
    applySepiaFilter ⟨some y, some u, some v⟩ yStride uStride vStride width height ≠ none ∧
    Java_io_agora_agora_1rtc_1flutter_1example_VideoRawDataController_nativeApplySepiaFilter
        ⟨some y, some u, some v⟩ yStride uStride vStride width height ≠ none := by
  have hcw : 0 ≤ (width + 1) / 2 := by omega
  have hu0 : 0 ≤ uStride := by omega
  have hv0 : 0 ≤ vStride := by omega
  have huov2 : 0 < (height + 1) / 2 → 0 < (width + 1) / 2 →
      ((height + 1) / 2 - 1) * uStride < 2147483648 := fun _ _ => by omega
  have hvov2 : 0 < (height + 1) / 2 → 0 < (width + 1) / 2 →
      ((height + 1) / 2 - 1) * vStride < 2147483648 := fun _ _ => by omega
  obtain ⟨u1, hu1, -⟩ := plane_fill sepia_u u hw (by omega) hh (by omega) hu0 huov2
    (fun h1 _ => hulen h1)
  obtain ⟨v1, hv1, -⟩ := plane_fill sepia_v v hw (by omega) hh (by omega) hv0 hvov2
    (fun h1 _ => hvlen h1)
  have hrun := applySepiaFilter_of_fills (y := y) yStride uStride vStride width height hu1 hv1
  refine ⟨?_, ?_, ?_, ?_, ?_, ?_⟩
  · intro i hi
    have hr := (written_iff_inRegion hw (by omega) hh (by omega) hu0 huov2 i).1 hi
    exact ⟨hr, inRegion_lt hus hr, inRegion_lt_length hu0 (fun h1 _ => hulen h1) hr⟩
  · intro i hi
    have hr := (written_iff_inRegion hw (by omega) hh (by omega) hv0 hvov2 i).1 hi
    exact ⟨hr, inRegion_lt hvs hr, inRegion_lt_length hv0 (fun h1 _ => hvlen h1) hr⟩
  · exact rowsFit_of_valid hw (by omega) hh (by omega) hu0 huov2 (fun h1 _ => hulen h1)
  · exact rowsFit_of_valid hw (by omega) hh (by omega) hv0 hvov2 (fun h1 _ => hvlen h1)
  · rw [hrun]; exact Option.some_ne_none _
  · rw [native_eq_applySepiaFilter, hrun]; exact Option.some_ne_none _

/-- C5 (witness): `width = 7`, `height = 5`, strides `6`, chroma buffers of `16` bytes
(`chromaWidth = 4`, `chromaHeight = 3`, last written offset `15`). -/
theorem no_overrun_witness :
    (∀ i : Nat, Written 6 (chroma_width 7) (chroma_height 5).toNat 0 i →
      (∃ r c : Int, 0 ≤ r ∧ r < (5 + 1) / 2 ∧ 0 ≤ c ∧ c < (7 + 1) / 2 ∧
        (i : Int) = r * 6 + c) ∧
      (i : Int) < (5 + 1) / 2 * 6 ∧ i < (List.replicate 16 (128 : Byte)).length) ∧
    (∀ i : Nat, Written 6 (chroma_width 7) (chroma_height 5).toNat 0 i →
      (∃ r c : Int, 0 ≤ r ∧ r < (5 + 1) / 2 ∧ 0 ≤ c ∧ c < (7 + 1) / 2 ∧
        (i : Int) = r * 6 + c) ∧
      (i : Int) < (5 + 1) / 2 * 6 ∧ i < (List.replicate 16 (128 : Byte)).length) ∧
    RowsFit 6 (chroma_width 7) (chroma_height 5).toNat 0
      (List.replicate 16 (128 : Byte)).length ∧
    RowsFit 6 (chroma_width 7) (chroma_height 5).toNat 0
      (List.replicate 16 (128 : Byte)).length ∧
    applySepiaFilter ⟨some (List.replicate 35 0), some (List.replicate 16 128),
        some (List.replicate 16 128)⟩ 7 6 6 7 5 ≠ none ∧
    Java_io_agora_agora_1rtc_1flutter_1example_VideoRawDataController_nativeApplySepiaFilter
        ⟨some (List.replicate 35 0), some (List.replicate 16 128),
        some (List.replicate 16 128)⟩ 7 6 6 7 5 ≠ none :=
  no_overrun (List.replicate 35 0) (List.replicate 16 128) (List.replicate 16 128)
    7 6 6 7 5 (by decide) (by decide) (by decide) (by decide) (fun _ => by decide)
    (fun _ => by decide) (by decide) (by decide) (by decide) (by decide)

/-- C6 (as stated, refuted): `width = 2147483647` is a non-negative `int`, yet the code's
`(width + 1) / 2` is `-1073741824` while the ceiling of `width / 2` is `1073741824`. -/
theorem odd_dimension_rounding_counterexample :
    (0 : Int) ≤ 2147483647 ∧ (2147483647 : Int) < 2147483648 ∧
    chroma_width 2147483647 = -1073741824 ∧
    chroma_height 2147483647 = -1073741824 ∧
    ⌈((2147483647 : Int) : ℚ) / 2⌉ = 1073741824 := by
  refine ⟨by decide, by decide, by decide, by decide, ?_⟩
  rw [ceil_half]
  decide

/-- C6 (amended): odd-dimension rounding.  For `0 <= width <= 2^31 - 2` and
`0 <= height <= 2^31 - 2` the chroma dimensions computed in `int` arithmetic are the
ceilings of `width / 2` and `height / 2`; `width = 7` and `width = 8` both give `4`. -/
theorem odd_dimension_rounding (width height : Int)
    (hw : 0 ≤ width) (hwmax : width ≤ 2147483646)
    (hh : 0 ≤ height) (hhmax : height ≤ 2147483646) :
    chroma_width width = ⌈(width : ℚ) / 2⌉ ∧ chroma_height height = ⌈(height : ℚ) / 2⌉ ∧
    chroma_width 7 = 4 ∧ chroma_width 8 = 4 := by
  refine ⟨?_, ?_, by decide, by decide⟩
  · rw [ceil_half, chroma_width_eq hw (by omega)]
  · rw [ceil_half, chroma_height_eq hh (by omega)]

/-- C6 (witness): `width = 7`, `height = 8`. -/
theorem odd_dimension_rounding_witness :
    chroma_width 7 = ⌈((7 : Int) : ℚ) / 2⌉ ∧ chroma_height 8 = ⌈((8 : Int) : ℚ) / 2⌉ ∧
    chroma_width 7 = 4 ∧ chroma_width 8 = 4 :=
  odd_dimension_rounding 7 8 (by decide) (by decide) (by decide) (by decide)

/-- C7: idempotence.  For every frame and every argument tuple for which one call has a
result, a second call with the same arguments on that result returns it unchanged. -/
theorem idempotent (f g : Frame) (yStride uStride vStride width height : Int)
    (h : applySepiaFilter f yStride uStride vStride width height = some g) :
    applySepiaFilter g yStride uStride vStride width height = some g ∧
    applySepiaFilter f yStride uStride vStride width height
      = (applySepiaFilter f yStride uStride vStride width height).bind
          fun g1 => applySepiaFilter g1 yStride uStride vStride width height := by
  have h2 : applySepiaFilter g yStride uStride vStride width height = some g := by
    rcases applySepiaFilter_eq_some h with rfl | ⟨y, u, v, u1, v1, rfl, rfl, hu, hv⟩
    · exact h
    · exact applySepiaFilter_of_fills yStride uStride vStride width height
        (fillRows_idem _ _ _ _ _ _ _ hu) (fillRows_idem _ _ _ _ _ _ _ hv)
  refine ⟨h2, ?_⟩
  rw [h, Option.some_bind, h2]

/-- C7 (witness): `width = 4`, `height = 4`, strides `4`. -/
theorem idempotent_witness :
    applySepiaFilter
        ⟨some (List.replicate 16 0), some [100, 100, 128, 128, 100, 100, 128, 128],
          some [160, 160, 128, 128, 160, 160, 128, 128]⟩ 4 4 4 4 4
      = some ⟨some (List.replicate 16 0), some [100, 100, 128, 128, 100, 100, 128, 128],
          some [160, 160, 128, 128, 160, 160, 128, 128]⟩ ∧
    applySepiaFilter
        ⟨some (List.replicate 16 0), some (List.replicate 8 128),
          some (List.replicate 8 128)⟩ 4 4 4 4 4
      = (applySepiaFilter
          ⟨some (List.replicate 16 0), some (List.replicate 8 128),
            some (List.replicate 8 128)⟩ 4 4 4 4 4).bind
          fun g1 => applySepiaFilter g1 4 4 4 4 4 :=
  idempotent
    ⟨some (List.replicate 16 0), some (List.replicate 8 128), some (List.replicate 8 128)⟩
    ⟨some (List.replicate 16 0), some [100, 100, 128, 128, 100, 100, 128, 128],
      some [160, 160, 128, 128, 160, 160, 128, 128]⟩ 4 4 4 4 4 (by decide)

/-- C8 (as stated, refuted): with `width = 1`, `height = 2147483647`, strides `1` and
chroma buffers of `2^30` bytes (`chromaWidth = 1`, `chromaHeight = 2^30`, so the active
region is the whole buffer), two U buffers that differ inside the active region only stay
different: `height + 1` leaves the `int` range, `chroma_height` is negative and nothing
is written. -/
theorem pure_overwrite_counterexample :
    ((1 + 1) / 2 : Int) ≤ 1 ∧
    (((2147483647 + 1) / 2 - 1) * 1 + (1 + 1) / 2 : Int)
      ≤ (List.replicate 1073741824 (0 : Byte)).length ∧
    (List.replicate 1073741824 (0 : Byte)).length
      = (List.replicate 1073741824 (1 : Byte)).length ∧
    (∀ i : Nat,
      (¬ ∃ r c : Int, 0 ≤ r ∧ r < (2147483647 + 1) / 2 ∧ 0 ≤ c ∧ c < (1 + 1) / 2 ∧
          (i : Int) = r * 1 + c) →
      (List.replicate 1073741824 (0 : Byte))[i]? = (List.replicate 1073741824 (1 : Byte))[i]?) ∧
    applySepiaFilter ⟨some (List.replicate 2147483647 0),
        some (List.replicate 1073741824 0), some (List.replicate 1073741824 128)⟩
        1 1 1 1 2147483647
      = some ⟨some (List.replicate 2147483647 0),
        some (List.replicate 1073741824 0), some (List.replicate 1073741824 128)⟩ ∧
    applySepiaFilter ⟨some (List.replicate 2147483647 0),
        some (List.replicate 1073741824 1), some (List.replicate 1073741824 128)⟩
        1 1 1 1 2147483647
      = some ⟨some (List.replicate 2147483647 0),
        some (List.replicate 1073741824 1), some (List.replicate 1073741824 128)⟩ ∧
    List.replicate 1073741824 (0 : Byte) ≠ List.replicate 1073741824 (1 : Byte) := by
  refine ⟨by decide, ?_, ?_, ?_, ?_, ?_, ?_⟩
  · rw [List.length_replicate]; decide
  · rw [List.length_replicate, List.length_replicate]
  · intro i hi
    have hge : ¬ i < 1073741824 := by
      intro hlt
      exact hi ⟨i, 0, by omega, by omega, by omega, by omega, by omega⟩
    rw [List.getElem?_replicate, List.getElem?_replicate, if_neg hge, if_neg hge]
  · exact applySepiaFilter_of_rows_zero _ _ _ _ _ _ _ _ (by decide)
  · exact applySepiaFilter_of_rows_zero _ _ _ _ _ _ _ _ (by decide)
  · intro h
    have := (List.replicate_right_inj (by decide)).1 h
    exact absurd this (by decide)

/-- C8 (amended): pure overwrite.  Two calls with the same `width`, `height`, `uStride`,
`vStride`, all planes present, non-negative geometry without `int` overflow (`width` and
`height` at most `2^31 - 2`, last row offset at most `2^31 - 1`), chroma buffers of equal
lengths that hold the active region: when the two U buffers (resp. V buffers) agree at
every offset outside the active region, both calls complete, on both platforms, with the
same U buffer and the same V buffer. -/
theorem pure_overwrite (y1 u1 v1 y2 u2 v2 : List Byte)
    (yStride uStride vStride width height : Int)
    (hw : 0 ≤ width) (hh : 0 ≤ height) (hus : 0 ≤ uStride) (hvs : 0 ≤ vStride)
    (hulen : 0 < (height + 1) / 2 → 0 < (width + 1) / 2 →
      ((height + 1) / 2 - 1) * uStride + (width + 1) / 2 ≤ u1.length)
    (hvlen : 0 < (height + 1) / 2 → 0 < (width + 1) / 2 →
      ((height + 1) / 2 - 1) * vStride + (width + 1) / 2 ≤ v1.length)
    (hul : u1.length = u2.length) (hvl : v1.length = v2.length)
    (hua : ∀ i : Nat,
      (¬ ∃ r c : Int, 0 ≤ r ∧ r < (height + 1) / 2 ∧ 0 ≤ c ∧ c < (width + 1) / 2 ∧
          (i : Int) = r * uStride + c) → u1[i]? = u2[i]?)
    (hva : ∀ i : Nat,
      (¬ ∃ r c : Int, 0 ≤ r ∧ r < (height + 1) / 2 ∧ 0 ≤ c ∧ c < (width + 1) / 2 ∧
          (i : Int) = r * vStride + c) → v1[i]? = v2[i]?)
    (hwmax : width ≤ 2147483646) (hhmax : height ≤ 2147483646)
    (huov : ((height + 1) / 2 - 1) * uStride ≤ 2147483647)
    (hvov : ((height + 1) / 2 - 1) * vStride ≤ 2147483647) :
    ∃ u3 v3 : List Byte,
      applySepiaFilter ⟨some y1, some u1, some v1⟩ yStride uStride vStride width height
        = some ⟨some y1, some u3, some v3⟩ ∧
      applySepiaFilter ⟨some y2, some u2, some v2⟩ yStride uStride vStride width height
        = some ⟨some y2, some u3, some v3⟩ ∧
      Java_io_agora_agora_1rtc_1flutter_1example_VideoRawDataController_nativeApplySepiaFilter
          ⟨some y1, some u1, some v1⟩ yStride uStride vStride width height
        = some ⟨some y1, some u3, some v3⟩ ∧
      Java_io_agora_agora_1rtc_1flutter_1example_VideoRawDataController_nativeApplySepiaFilter
          ⟨some y2, some u2, some v2⟩ yStride uStride vStride width height
        = some ⟨some y2, some u3, some v3⟩ := by
  obtain ⟨a1, ha1, -, har, han⟩ := plane_fill sepia_u u1 hw (by omega) hh (by omega) hus
    (fun _ _ => by omega) hulen
  obtain ⟨a2, ha2, -, har2, han2⟩ := plane_fill sepia_u u2 hw (by omega) hh (by omega) hus
    (fun _ _ => by omega) (hul ▸ hulen)
  obtain ⟨b1, hb1, -, hbr, hbn⟩ := plane_fill sepia_v v1 hw (by omega) hh (by omega) hvs
    (fun _ _ => by omega) hvlen
  obtain ⟨b2, hb2, -, hbr2, hbn2⟩ := plane_fill sepia_v v2 hw (by omega) hh (by omega) hvs
    (fun _ _ => by omega) (hvl ▸ hvlen)
  have ea : a2 = a1 := by
    apply List.ext_getElem?
    intro i
    by_cases hi : InRegion uStride ((width + 1) / 2) ((height + 1) / 2) i
    · rw [har i hi, har2 i hi]
    · rw [han i hi, han2 i hi, hua i hi]
  have eb : b2 = b1 := by
    apply List.ext_getElem?
    intro i
    by_cases hi : InRegion vStride ((width + 1) / 2) ((height + 1) / 2) i
    · rw [hbr i hi, hbr2 i hi]
    · rw [hbn i hi, hbn2 i hi, hva i hi]
  subst ea eb
  have h1 := applySepiaFilter_of_fills (y := y1) yStride uStride vStride width height ha1 hb1
  have h2 := applySepiaFilter_of_fills (y := y2) yStride uStride vStride width height ha2 hb2
  exact ⟨a2, b2, h1, h2, (native_eq_applySepiaFilter _ _ _ _ _ _).trans h1,
    (native_eq_applySepiaFilter _ _ _ _ _ _).trans h2⟩

/-- C8 (witness): `width = 4`, `height = 2`, strides `4`: one active row of two bytes; the
U buffers `[1, 2, 7, 7]` and `[3, 4, 7, 7]` differ inside the region only. -/
theorem pure_overwrite_witness :
    ∃ u3 v3 : List Byte,
      applySepiaFilter ⟨some [0, 0, 0, 0, 0, 0, 0, 0], some [1, 2, 7, 7], some [5, 6, 9, 9]⟩
          4 4 4 4 2
        = some ⟨some [0, 0, 0, 0, 0, 0, 0, 0], some u3, some v3⟩ ∧
      applySepiaFilter ⟨some [1, 1, 1, 1, 1, 1, 1, 1], some [3, 4, 7, 7], some [8, 8, 9, 9]⟩
          4 4 4 4 2
        = some ⟨some [1, 1, 1, 1, 1, 1, 1, 1], some u3, some v3⟩ ∧
      Java_io_agora_agora_1rtc_1flutter_1example_VideoRawDataController_nativeApplySepiaFilter
          ⟨some [0, 0, 0, 0, 0, 0, 0, 0], some [1, 2, 7, 7], some [5, 6, 9, 9]⟩ 4 4 4 4 2
        = some ⟨some [0, 0, 0, 0, 0, 0, 0, 0], some u3, some v3⟩ ∧
      Java_io_agora_agora_1rtc_1flutter_1example_VideoRawDataController_nativeApplySepiaFilter
          ⟨some [1, 1, 1, 1, 1, 1, 1, 1], some [3, 4, 7, 7], some [8, 8, 9, 9]⟩ 4 4 4 4 2
        = some ⟨some [1, 1, 1, 1, 1, 1, 1, 1], some u3, some v3⟩ :=
  pure_overwrite [0, 0, 0, 0, 0, 0, 0, 0] [1, 2, 7, 7] [5, 6, 9, 9]
    [1, 1, 1, 1, 1, 1, 1, 1] [3, 4, 7, 7] [8, 8, 9, 9] 4 4 4 4 2
    (by decide) (by decide) (by decide) (by decide) (fun _ _ => by decide)
    (fun _ _ => by decide) rfl rfl
    (fun i hi => by
      match i with
      | 0 => exact absurd ⟨0, 0, by decide, by decide, by decide, by decide, by decide⟩ hi
      | 1 => exact absurd ⟨0, 1, by decide, by decide, by decide, by decide, by decide⟩ hi
      | 2 => rfl
      | 3 => rfl
      | _ + 4 => rfl)
    (fun i hi => by
      match i with
      | 0 => exact absurd ⟨0, 0, by decide, by decide, by decide, by decide, by decide⟩ hi
      | 1 => exact absurd ⟨0, 1, by decide, by decide, by decide, by decide, by decide⟩ hi
      | 2 => rfl
      | 3 => rfl
      | _ + 4 => rfl)
    (by decide) (by decide) (by decide) (by decide)

/-- C9 (as stated, refuted): a contiguous frame in one address space, Y in bytes
`0 .. 15`, U in bytes `16 .. 19`, V in bytes `20 .. 23`, `width = 4`, `height = 4`,
`uStride = 4`, `vStride = 2`.  Row 1 of U is filled from address `20`, the start of V.
`applySepiaFilter` fills V afterwards and ends with V `[160, 160, 160, 160]`; the Android
routine fills row 0 of V before row 1 of U and ends with V `[100, 100, 160, 160]`. -/
theorem platforms_agree_counterexample :
    applySepiaFilterFlat
        (List.replicate 16 16 ++ List.replicate 4 128 ++ List.replicate 4 128)
        (some 0) (some 16) (some 20) 4 4 2 4 4
      = some (List.replicate 16 16 ++ [100, 100, 128, 128] ++ [160, 160, 160, 160]) ∧
    nativeApplySepiaFilterFlat
        (List.replicate 16 16 ++ List.replicate 4 128 ++ List.replicate 4 128)
        (some 0) (some 16) (some 20) 4 4 2 4 4
      = some (List.replicate 16 16 ++ [100, 100, 128, 128] ++ [100, 100, 160, 160]) ∧
    ([160, 160, 160, 160] : List Byte) ≠ [100, 100, 160, 160] ∧
    applySepiaFilterFlat
        (List.replicate 16 16 ++ List.replicate 4 128 ++ List.replicate 4 128)
        (some 0) (some 16) (some 20) 4 4 2 4 4
      ≠ nativeApplySepiaFilterFlat
        (List.replicate 16 16 ++ List.replicate 4 128 ++ List.replicate 4 128)
        (some 0) (some 16) (some 20) 4 4 2 4 4 := by
  decide

/-- C9 (amended): the two platform copies are the same algorithm on every input whose
fills stay in their planes.  For every frame in which a plane is missing, or in which all
planes are present and every fill the row loops issue stays inside the chroma buffer it
is issued on, the Android routine (one loop, U row then V row) and `applySepiaFilter`
(all U rows, then all V rows) both complete with the same Y, U and V buffers; on the
contiguous layout `Y ++ U ++ V` of one address space they leave the same memory. -/
theorem platforms_agree (f : Frame) (yStride uStride vStride width height : Int)
    (hfit : ∀ y u v : List Byte, f = ⟨some y, some u, some v⟩ →
      RowsFit uStride (chroma_width width) (chroma_height height).toNat 0 u.length ∧
      RowsFit vStride (chroma_width width) (chroma_height height).toNat 0 v.length) :
    ∃ g : Frame,
      Java_io_agora_agora_1rtc_1flutter_1example_VideoRawDataController_nativeApplySepiaFilter
          f yStride uStride vStride width height = some g ∧
      applySepiaFilter f yStride uStride vStride width height = some g ∧
      ∀ y u v : List Byte, f = ⟨some y, some u, some v⟩ →
        ∃ m : List Byte,
          nativeApplySepiaFilterFlat (y ++ u ++ v) (some 0) (some y.length)
              (some (y.length + u.length)) yStride uStride vStride width height = some m ∧
          applySepiaFilterFlat (y ++ u ++ v) (some 0) (some y.length)
              (some (y.length + u.length)) yStride uStride vStride width height = some m := by
  by_cases hp : ∃ y u v, f = ⟨some y, some u, some v⟩
  · obtain ⟨y, u, v, rfl⟩ := hp
    obtain ⟨hu, hv⟩ := hfit y u v rfl
    obtain ⟨u1, v1, -, -, -, -, h1, h2, h3, h4⟩ :=
      defined_call y u v yStride uStride vStride width height hu hv
    refine ⟨⟨some y, some u1, some v1⟩, h2, h1, ?_⟩
    intro y2 u2 v2 he
    cases he
    exact ⟨y ++ u1 ++ v1, h4, h3⟩
  · have h1 := applySepiaFilter_of_missing f yStride uStride vStride width height hp
    refine ⟨f, (native_eq_applySepiaFilter _ _ _ _ _ _).trans h1, h1, ?_⟩
    intro y u v he
    exact absurd ⟨y, u, v, he⟩ hp

/-- C9 (witness): `width = 7`, `height = 5`, `uStride = 6`, `vStride = 4`, U of 16 bytes
and V of 12 bytes (`chromaWidth = 4`, `chromaHeight = 3`). -/
theorem platforms_agree_witness :
    ∃ g : Frame,
      Java_io_agora_agora_1rtc_1flutter_1example_VideoRawDataController_nativeApplySepiaFilter
          ⟨some (List.replicate 35 0), some (List.replicate 16 128),
            some (List.replicate 12 128)⟩ 7 6 4 7 5 = some g ∧
      applySepiaFilter
          ⟨some (List.replicate 35 0), some (List.replicate 16 128),
            some (List.replicate 12 128)⟩ 7 6 4 7 5 = some g ∧
      ∀ y u v : List Byte,
        (⟨some (List.replicate 35 0), some (List.replicate 16 128),
            some (List.replicate 12 128)⟩ : Frame) = ⟨some y, some u, some v⟩ →
        ∃ m : List Byte,
          nativeApplySepiaFilterFlat (y ++ u ++ v) (some 0) (some y.length)
              (some (y.length + u.length)) 7 6 4 7 5 = some m ∧
          applySepiaFilterFlat (y ++ u ++ v) (some 0) (some y.length)
              (some (y.length + u.length)) 7 6 4 7 5 = some m :=
  platforms_agree
    ⟨some (List.replicate 35 0), some (List.replicate 16 128), some (List.replicate 12 128)⟩
    7 6 4 7 5
    (fun y u v he => by
      cases he
      exact ⟨(fillRows_isSome_iff sepia_u 6 (chroma_width 7) (chroma_height 5).toNat 0
          (List.replicate 16 128)).1 (by decide),
        (fillRows_isSome_iff sepia_v 4 (chroma_width 7) (chroma_height 5).toNat 0
          (List.replicate 12 128)).1 (by decide)⟩)

/-- C10: empty active region is a no-op.  All planes present; when `height <= 0` (an
`int`, any width and strides) or `width = 0` (any height and strides), the computed
region is empty (`chroma_height <= 0` or `chroma_width = 0`), the row loops write no
offset, and the call returns the frame unchanged on both platforms. -/
theorem empty_region_noop (y u v : List Byte) (yStride uStride vStride width height : Int)
    (h : (-2147483648 ≤ height ∧ height ≤ 0) ∨ width = 0) :
    (chroma_height height ≤ 0 ∨ chroma_width width = 0) ∧
    (∀ i : Nat, ¬ Written uStride (chroma_width width) (chroma_height height).toNat 0 i) ∧
    (∀ i : Nat, ¬ Written vStride (chroma_width width) (chroma_height height).toNat 0 i) ∧
    applySepiaFilter ⟨some y, some u, some v⟩ yStride uStride vStride width height
      = some ⟨some y, some u, some v⟩ ∧
    Java_io_agora_agora_1rtc_1flutter_1example_VideoRawDataController_nativeApplySepiaFilter
        ⟨some y, some u, some v⟩ yStride uStride vStride width height
      = some ⟨some y, some u, some v⟩ := by
  have key : (chroma_height height).toNat = 0 ∨ toSizeT (chroma_width width) = 0 := by
    rcases h with ⟨hmin, hle⟩ | rfl
    · left
      have := chroma_height_nonpos hmin hle
      omega
    · right
      decide
  have hrun : applySepiaFilter ⟨some y, some u, some v⟩ yStride uStride vStride width height
      = some ⟨some y, some u, some v⟩ := by
    rcases key with h0 | h0
    · exact applySepiaFilter_of_rows_zero _ _ _ _ _ _ _ _ h0
    · exact applySepiaFilter_of_fills _ _ _ _ _ (fillRows_zero_count _ _ _ h0 _ _ _)
        (fillRows_zero_count _ _ _ h0 _ _ _)
  refine ⟨?_, fun i => not_written_of_empty 0 i key, fun i => not_written_of_empty 0 i key,
    hrun, (native_eq_applySepiaFilter _ _ _ _ _ _).trans hrun⟩
  rcases h with ⟨hmin, hle⟩ | rfl
  · exact Or.inl (chroma_height_nonpos hmin hle)
  · exact Or.inr (by decide)

/-- C10 (witness): `width = 4`, `height = -3`, strides `4`. -/
theorem empty_region_noop_witness :
    (chroma_height (-3) ≤ 0 ∨ chroma_width 4 = 0) ∧
    (∀ i : Nat, ¬ Written 4 (chroma_width 4) (chroma_height (-3)).toNat 0 i) ∧
    (∀ i : Nat, ¬ Written 4 (chroma_width 4) (chroma_height (-3)).toNat 0 i) ∧
    applySepiaFilter ⟨some [0, 0, 0, 0], some [128, 128], some [128, 128]⟩ 4 4 4 4 (-3)
      = some ⟨some [0, 0, 0, 0], some [128, 128], some [128, 128]⟩ ∧
    Java_io_agora_agora_1rtc_1flutter_1example_VideoRawDataController_nativeApplySepiaFilter
        ⟨some [0, 0, 0, 0], some [128, 128], some [128, 128]⟩ 4 4 4 4 (-3)
      = some ⟨some [0, 0, 0, 0], some [128, 128], some [128, 128]⟩ :=
  empty_region_noop [0, 0, 0, 0] [128, 128] [128, 128] 4 4 4 4 (-3)
    (Or.inl ⟨by decide, by decide⟩)

/-- C11 (as stated, refuted): a contiguous frame in one address space, Y in bytes
`0 .. 15`, U in bytes `16 .. 19`, V in bytes `20 .. 27`, `width = 4`, `height = 4`,
`vStride = 4`.  With `uStride = 2` the V plane ends as `[160, 160, 128, 128, 160, 160,
128, 128]`; with `uStride = 6`, the V plane, `vStride`, `width` and `height` being the
same, row 1 of U is filled from address `22` and the V plane ends as `[160, 160, 100,
100, 160, 160, 128, 128]`, on both platforms. -/
theorem per_plane_separable_counterexample :
    applySepiaFilterFlat
        (List.replicate 16 16 ++ List.replicate 4 128 ++ List.replicate 8 128)
        (some 0) (some 16) (some 20) 4 2 4 4 4
      = some (List.replicate 16 16 ++ [100, 100, 100, 100]
          ++ [160, 160, 128, 128, 160, 160, 128, 128]) ∧
    applySepiaFilterFlat
        (List.replicate 16 16 ++ List.replicate 4 128 ++ List.replicate 8 128)
        (some 0) (some 16) (some 20) 4 6 4 4 4
      = some (List.replicate 16 16 ++ [100, 100, 128, 128]
          ++ [160, 160, 100, 100, 160, 160, 128, 128]) ∧
    nativeApplySepiaFilterFlat
        (List.replicate 16 16 ++ List.replicate 4 128 ++ List.replicate 8 128)
        (some 0) (some 16) (some 20) 4 2 4 4 4
      = some (List.replicate 16 16 ++ [100, 100, 100, 100]
          ++ [160, 160, 128, 128, 160, 160, 128, 128]) ∧
    nativeApplySepiaFilterFlat
        (List.replicate 16 16 ++ List.replicate 4 128 ++ List.replicate 8 128)
        (some 0) (some 16) (some 20) 4 6 4 4 4
      = some (List.replicate 16 16 ++ [100, 100, 128, 128]
          ++ [160, 160, 100, 100, 160, 160, 128, 128]) ∧
    ([160, 160, 128, 128, 160, 160, 128, 128] : List Byte)
      ≠ [160, 160, 100, 100, 160, 160, 128, 128] := by
  decide

/-- C11 (amended): per-plane separability.  Two calls with the same `width` and `height`,
all planes present, in each of which every fill the row loops issue stays inside the
chroma buffer it is issued on.  Both calls complete on both platforms; the U buffer of a
result is the value of the U row loop, a function of the pre-call U buffer, `uStride`,
`width` and `height` alone, and the V buffer the value of the V row loop on the pre-call V
buffer, `vStride`, `width` and `height`; the same holds for the planes left in memory on
the contiguous layout `Y ++ U ++ V`.  Hence the two calls agree on U when they share the
U buffer and `uStride`, and on V when they share the V buffer and `vStride`, whatever
`yStride`, the Y plane and the other chroma plane and its stride are. -/
theorem per_plane_separable (y1 u1 v1 y2 u2 v2 : List Byte)
    (yStride1 uStride1 vStride1 yStride2 uStride2 vStride2 width height : Int)
    (hu1 : RowsFit uStride1 (chroma_width width) (chroma_height height).toNat 0 u1.length)
    (hv1 : RowsFit vStride1 (chroma_width width) (chroma_height height).toNat 0 v1.length)
    (hu2 : RowsFit uStride2 (chroma_width width) (chroma_height height).toNat 0 u2.length)
    (hv2 : RowsFit vStride2 (chroma_width width) (chroma_height height).toNat 0 v2.length) :
    ∃ a1 b1 a2 b2 : List Byte,
      fillRows sepia_u uStride1 (chroma_width width) (chroma_height height).toNat 0 u1
        = some a1 ∧
      fillRows sepia_v vStride1 (chroma_width width) (chroma_height height).toNat 0 v1
        = some b1 ∧
      fillRows sepia_u uStride2 (chroma_width width) (chroma_height height).toNat 0 u2
        = some a2 ∧
      fillRows sepia_v vStride2 (chroma_width width) (chroma_height height).toNat 0 v2
        = some b2 ∧
      applySepiaFilter ⟨some y1, some u1, some v1⟩ yStride1 uStride1 vStride1 width height
        = some ⟨some y1, some a1, some b1⟩ ∧
      Java_io_agora_agora_1rtc_1flutter_1example_VideoRawDataController_nativeApplySepiaFilter
          ⟨some y1, some u1, some v1⟩ yStride1 uStride1 vStride1 width height
        = some ⟨some y1, some a1, some b1⟩ ∧
      applySepiaFilter ⟨some y2, some u2, some v2⟩ yStride2 uStride2 vStride2 width height
        = some ⟨some y2, some a2, some b2⟩ ∧
      Java_io_agora_agora_1rtc_1flutter_1example_VideoRawDataController_nativeApplySepiaFilter
          ⟨some y2, some u2, some v2⟩ yStride2 uStride2 vStride2 width height
        = some ⟨some y2, some a2, some b2⟩ ∧
      applySepiaFilterFlat (y1 ++ u1 ++ v1) (some 0) (some y1.length)
          (some (y1.length + u1.length)) yStride1 uStride1 vStride1 width height
        = some (y1 ++ a1 ++ b1) ∧
      nativeApplySepiaFilterFlat (y1 ++ u1 ++ v1) (some 0) (some y1.length)
          (some (y1.length + u1.length)) yStride1 uStride1 vStride1 width height
        = some (y1 ++ a1 ++ b1) ∧
      applySepiaFilterFlat (y2 ++ u2 ++ v2) (some 0) (some y2.length)
          (some (y2.length + u2.length)) yStride2 uStride2 vStride2 width height
        = some (y2 ++ a2 ++ b2) ∧
      nativeApplySepiaFilterFlat (y2 ++ u2 ++ v2) (some 0) (some y2.length)
          (some (y2.length + u2.length)) yStride2 uStride2 vStride2 width height
        = some (y2 ++ a2 ++ b2) ∧
      (u1 = u2 → uStride1 = uStride2 → a1 = a2) ∧
      (v1 = v2 → vStride1 = vStride2 → b1 = b2) := by
  obtain ⟨a1, b1, ha1, hb1, -, -, p1, p2, p3, p4⟩ :=
    defined_call y1 u1 v1 yStride1 uStride1 vStride1 width height hu1 hv1
  obtain ⟨a2, b2, ha2, hb2, -, -, q1, q2, q3, q4⟩ :=
    defined_call y2 u2 v2 yStride2 uStride2 vStride2 width height hu2 hv2
  refine ⟨a1, b1, a2, b2, ha1, hb1, ha2, hb2, p1, p2, q1, q2, p3, p4, q3, q4, ?_, ?_⟩
  · rintro rfl rfl
    exact Option.some.inj (ha1.symm.trans ha2)
  · rintro rfl rfl
    exact Option.some.inj (hb1.symm.trans hb2)

/-- C11 (witness): `width = 4`, `height = 4`; two calls that share the V buffer of 8
bytes and `vStride = 4` but differ in the Y plane, `yStride`, the U plane and `uStride`
(`2` on 4 bytes, `4` on 6 bytes). -/
theorem per_plane_separable_witness :
    ∃ a1 b1 a2 b2 : List Byte,
      fillRows sepia_u 2 (chroma_width 4) (chroma_height 4).toNat 0 (List.replicate 4 128)
        = some a1 ∧
      fillRows sepia_v 4 (chroma_width 4) (chroma_height 4).toNat 0 (List.replicate 8 128)
        = some b1 ∧
      fillRows sepia_u 4 (chroma_width 4) (chroma_height 4).toNat 0 (List.replicate 6 7)
        = some a2 ∧
      fillRows sepia_v 4 (chroma_width 4) (chroma_height 4).toNat 0 (List.replicate 8 128)
        = some b2 ∧
      applySepiaFilter ⟨some (List.replicate 16 16), some (List.replicate 4 128),
          some (List.replicate 8 128)⟩ 4 2 4 4 4
        = some ⟨some (List.replicate 16 16), some a1, some b1⟩ ∧
      Java_io_agora_agora_1rtc_1flutter_1example_VideoRawDataController_nativeApplySepiaFilter
          ⟨some (List.replicate 16 16), some (List.replicate 4 128),
          some (List.replicate 8 128)⟩ 4 2 4 4 4
        = some ⟨some (List.replicate 16 16), some a1, some b1⟩ ∧
      applySepiaFilter ⟨some (List.replicate 20 3), some (List.replicate 6 7),
          some (List.replicate 8 128)⟩ 5 4 4 4 4
        = some ⟨some (List.replicate 20 3), some a2, some b2⟩ ∧
      Java_io_agora_agora_1rtc_1flutter_1example_VideoRawDataController_nativeApplySepiaFilter
          ⟨some (List.replicate 20 3), some (List.replicate 6 7),
          some (List.replicate 8 128)⟩ 5 4 4 4 4
        = some ⟨some (List.replicate 20 3), some a2, some b2⟩ ∧
      applySepiaFilterFlat
          (List.replicate 16 16 ++ List.replicate 4 128 ++ List.replicate 8 128) (some 0)
          (some (List.replicate 16 (16 : Byte)).length)
          (some ((List.replicate 16 (16 : Byte)).length
            + (List.replicate 4 (128 : Byte)).length)) 4 2 4 4 4
        = some (List.replicate 16 16 ++ a1 ++ b1) ∧
      nativeApplySepiaFilterFlat
          (List.replicate 16 16 ++ List.replicate 4 128 ++ List.replicate 8 128) (some 0)
          (some (List.replicate 16 (16 : Byte)).length)
          (some ((List.replicate 16 (16 : Byte)).length
            + (List.replicate 4 (128 : Byte)).length)) 4 2 4 4 4
        = some (List.replicate 16 16 ++ a1 ++ b1) ∧
      applySepiaFilterFlat
          (List.replicate 20 3 ++ List.replicate 6 7 ++ List.replicate 8 128) (some 0)
          (some (List.replicate 20 (3 : Byte)).length)
          (some ((List.replicate 20 (3 : Byte)).length
            + (List.replicate 6 (7 : Byte)).length)) 5 4 4 4 4
        = some (List.replicate 20 3 ++ a2 ++ b2) ∧
      nativeApplySepiaFilterFlat
          (List.replicate 20 3 ++ List.replicate 6 7 ++ List.replicate 8 128) (some 0)
          (some (List.replicate 20 (3 : Byte)).length)
          (some ((List.replicate 20 (3 : Byte)).length
            + (List.replicate 6 (7 : Byte)).length)) 5 4 4 4 4
        = some (List.replicate 20 3 ++ a2 ++ b2) ∧
      (List.replicate 4 (128 : Byte) = List.replicate 6 7 → (2 : Int) = 4 → a1 = a2) ∧
      (List.replicate 8 (128 : Byte) = List.replicate 8 128 → (4 : Int) = 4 → b1 = b2) :=
  per_plane_separable (List.replicate 16 16) (List.replicate 4 128) (List.replicate 8 128)
    (List.replicate 20 3) (List.replicate 6 7) (List.replicate 8 128) 4 2 4 5 4 4 4 4
    ((fillRows_isSome_iff sepia_u 2 (chroma_width 4) (chroma_height 4).toNat 0
      (List.replicate 4 128)).1 (by decide))
    ((fillRows_isSome_iff sepia_v 4 (chroma_width 4) (chroma_height 4).toNat 0
      (List.replicate 8 128)).1 (by decide))
    ((fillRows_isSome_iff sepia_u 4 (chroma_width 4) (chroma_height 4).toNat 0
      (List.replicate 6 7)).1 (by decide))
    ((fillRows_isSome_iff sepia_v 4 (chroma_width 4) (chroma_height 4).toNat 0
      (List.replicate 8 128)).1 (by decide))

end VideoProcessing
